import Mathlib

/-!
Shallow embedding of `src/audio-engine.js` (class `AudioEngine`): the
Web Audio gain-automation model, the per-layer state, the noise
synthesizer and the command surface, followed by theorems checking the
specification's claims against these definitions.

Modelling conventions:
- JS numbers are embedded as exact rationals (`ℚ`).
- `Math.random()` is an explicit stream `rand : ℕ → ℚ` of draws
  (sample `i` of a noise buffer consumes `rand i`).
- A gain `AudioParam` is a base value plus the list of scheduled
  automation events, in scheduling order; `cancelScheduledValues t`
  drops every event with time `≥ t`, as in Web Audio.
- `setTimeout(cb, ms)` becomes a pending `Timer` record; the source
  never stores the timeout handle, so nothing can clear it.
- Methods that `throw` return `Except String EngineState`; every throw
  in the source happens before any mutation, so the error case leaves
  the state unchanged.
-/

/-- A scheduled automation event on a gain `AudioParam`. -/
inductive AutomEvent where
  | setValue (v : ℚ) (t : ℚ)
  | linearRamp (v : ℚ) (t : ℚ)
deriving DecidableEq

def AutomEvent.time : AutomEvent → ℚ
  | .setValue _ t => t
  | .linearRamp _ t => t

def AutomEvent.val : AutomEvent → ℚ
  | .setValue v _ => v
  | .linearRamp v _ => v

/-- A gain `AudioParam`: intrinsic value plus scheduled events. -/
structure GainParam where
  base : ℚ
  events : List AutomEvent
deriving DecidableEq

/-- `gain.cancelScheduledValues(t)`: removes events scheduled at or after `t`. -/
def GainParam.cancelScheduledValues (p : GainParam) (t : ℚ) : GainParam :=
  { p with events := p.events.filter (fun e => decide (e.time < t)) }

/-- `gain.setValueAtTime(v, t)`. -/
def GainParam.setValueAtTime (p : GainParam) (v t : ℚ) : GainParam :=
  { p with events := p.events ++ [AutomEvent.setValue v t] }

/-- `gain.linearRampToValueAtTime(v, t)`. -/
def GainParam.linearRampToValueAtTime (p : GainParam) (v t : ℚ) : GainParam :=
  { p with events := p.events ++ [AutomEvent.linearRamp v t] }

/-- The setter `gain.value = v`. -/
def GainParam.setValueDirect (p : GainParam) (v : ℚ) : GainParam :=
  { p with base := v }

/-- Computed automation value at time `t`, walking events in schedule
order from value `cur` anchored at time `curT`: a `setValue`/ramp whose
time has passed becomes the new anchor; a ramp still in flight
interpolates linearly from the anchor. -/
def valueFrom (t : ℚ) : ℚ → ℚ → List AutomEvent → ℚ
  | cur, _, [] => cur
  | cur, _, AutomEvent.setValue v te :: rest =>
      if te ≤ t then valueFrom t v te rest else cur
  | cur, curT, AutomEvent.linearRamp v te :: rest =>
      if te ≤ t then valueFrom t v te rest
      else if t ≤ curT then cur
      else cur + (v - cur) * (t - curT) / (te - curT)

/-- The getter `gain.value`, read at time `t`. -/
def GainParam.valueAt (p : GainParam) (t : ℚ) : ℚ :=
  valueFrom t p.base t p.events

/-- An `<audio>` element bound to a layer. -/
structure AudioElem where
  path : String
  loop : Bool
deriving DecidableEq

/-- The source node bound to a layer. -/
inductive SourceNode where
  | mediaElement (path : String)
  | bufferSource (buffer : List ℚ)
  | oscillator (freq : ℚ)
deriving DecidableEq

/-- One audio layer, as built by `createLayer`. -/
structure Layer where
  id : String
  audioElement : Option AudioElem
  sourceNode : Option SourceNode
  gainNode : GainParam
  analyserFftSize : ℕ
  currentSound : Option String
  isPlaying : Bool
  volume : ℚ
  noiseBuffer : Option (List ℚ)
  noiseSource : Option SourceNode
deriving DecidableEq

/-- The engine configuration object. -/
structure Config where
  fadeDuration : ℚ
  enableCrossfade : Bool
  loopLayers : Bool
  sampleRate : ℕ
deriving DecidableEq

/-- The constructor defaults of `this.config`. -/
def defaultConfig : Config :=
  { fadeDuration := 1, enableCrossfade := true, loopLayers := true, sampleRate := 44100 }

/-- A pending `setTimeout` whose callback is
`() => this._stopLayerImmediately(layerId)` (the only callback the
source ever passes to `fadeOut`). -/
structure Timer where
  fireAt : ℚ
  layerId : String
deriving DecidableEq

/-- The whole `AudioEngine` instance state.  `ctxSampleRate` is the
`AudioContext`'s own sample rate (fixed by the environment when the
context is created); `now` is `audioContext.currentTime`. -/
structure EngineState where
  hasContext : Bool
  ctxSampleRate : ℕ
  masterGain : Option GainParam
  layers : List (String × Layer)
  isInitialized : Bool
  noiseGenerators : List (String × List ℚ)
  config : Config
  now : ℚ
  pendingTimers : List Timer
  log : List String
deriving DecidableEq

/-- The freshly constructed engine (`new AudioEngine()`). -/
def initialState : EngineState :=
  { hasContext := false, ctxSampleRate := 0, masterGain := none, layers := [],
    isInitialized := false, noiseGenerators := [], config := defaultConfig,
    now := 0, pendingTimers := [], log := [] }

/-- `this.audioLibrary[category]?.[name]`: `none` when the category or
name is absent, `some none` for a `null` entry (generated noise),
`some (some path)` for a file-backed entry. -/
def audioLibrary (category name : String) : Option (Option String) :=
  if category = "nature" then
    if name = "rain" then some (some "assets/audio/nature/rain.mp3")
    else if name = "forest" then some (some "assets/audio/nature/forest.mp3")
    else if name = "ocean" then some (some "assets/audio/nature/ocean.mp3")
    else if name = "stream" then some (some "assets/audio/nature/stream.mp3")
    else if name = "birds" then some (some "assets/audio/nature/birds.mp3")
    else none
  else if category = "music" then
    if name = "piano" then some (some "assets/audio/music/piano.mp3")
    else if name = "ambient" then some (some "assets/audio/music/ambient.mp3")
    else if name = "guitar" then some (some "assets/audio/music/guitar.mp3")
    else if name = "strings" then some (some "assets/audio/music/strings.mp3")
    else if name = "lofi" then some (some "assets/audio/music/lofi.mp3")
    else none
  else if category = "noise" then
    if name = "white" then some none
    else if name = "pink" then some none
    else if name = "brown" then some none
    else if name = "fan" then some (some "assets/audio/noise/fan.mp3")
    else if name = "cafe" then some (some "assets/audio/noise/cafe.mp3")
    else none
  else if category = "ambient" then
    if name = "space" then some (some "assets/audio/ambient/space.mp3")
    else if name = "temple" then some (some "assets/audio/ambient/temple.mp3")
    else if name = "wind" then some (some "assets/audio/ambient/wind.mp3")
    else if name = "tibetan" then some (some "assets/audio/ambient/tibetan.mp3")
    else if name = "meditation" then some (some "assets/audio/ambient/meditation.mp3")
    else none
  else none

/-- `this.layers.get(layerId)`. -/
def lookupLayer (s : EngineState) (layerId : String) : Option Layer :=
  (s.layers.find? (fun p => p.1 == layerId)).map (fun p => p.2)

/-- In-place mutation of the layer object stored under `layerId`. -/
def updateLayer (s : EngineState) (layerId : String) (f : Layer → Layer) : EngineState :=
  { s with layers := s.layers.map (fun p => if p.1 == layerId then (p.1, f p.2) else p) }

/-- One white-noise sample: `Math.random() * 2 - 1`. -/
def whiteSample (rand : ℕ → ℚ) (i : ℕ) : ℚ :=
  rand i * 2 - 1

/-- The mutable pink-noise filter registers `b0 … b6`. -/
structure PinkState where
  b0 : ℚ
  b1 : ℚ
  b2 : ℚ
  b3 : ℚ
  b4 : ℚ
  b5 : ℚ
  b6 : ℚ
deriving DecidableEq

def pinkInit : PinkState := ⟨0, 0, 0, 0, 0, 0, 0⟩

/-- One iteration of the pink-noise loop body: updates `b0 … b5` from
the fresh white draw, emits the output sample using the updated
`b0 … b5` but the previous `b6`, then refreshes `b6`. -/
def pinkStep (st : PinkState) (white : ℚ) : PinkState × ℚ :=
  let b0 := 0.99886 * st.b0 + white * 0.0555179
  let b1 := 0.99332 * st.b1 + white * 0.0750759
  let b2 := 0.96900 * st.b2 + white * 0.1538520
  let b3 := 0.86650 * st.b3 + white * 0.3104856
  let b4 := 0.55000 * st.b4 + white * 0.5329522
  let b5 := -0.7616 * st.b5 - white * 0.0168980
  let out := (b0 + b1 + b2 + b3 + b4 + b5 + st.b6 + white * 0.5362) * 0.11
  (⟨b0, b1, b2, b3, b4, b5, white * 0.115926⟩, out)

/-- Filter registers before the iteration that fills sample `i`. -/
def pinkStateAt (rand : ℕ → ℚ) : ℕ → PinkState
  | 0 => pinkInit
  | n + 1 => (pinkStep (pinkStateAt rand n) (whiteSample rand n)).1

/-- Pink-noise sample `i` (`data[i]` of the pink branch). -/
def pinkSample (rand : ℕ → ℚ) (i : ℕ) : ℚ :=
  (pinkStep (pinkStateAt rand i) (whiteSample rand i)).2

/-- `lastOut` after the iteration that fills sample `i`: the brown
branch stores the unscaled value (`lastOut = data[i]` happens before
`data[i] *= 3.5`). -/
def brownPre (rand : ℕ → ℚ) : ℕ → ℚ
  | 0 => (0 + 0.02 * whiteSample rand 0) / 1.02
  | n + 1 => (brownPre rand n + 0.02 * whiteSample rand (n + 1)) / 1.02

/-- Brown-noise sample `i` after the `3.5` compensation scaling. -/
def brownSample (rand : ℕ → ℚ) (i : ℕ) : ℚ :=
  brownPre rand i * 3.5

/-- Sample `i` of `createNoiseBuffer`'s channel data; an unrecognized
type leaves the zero-initialized buffer untouched. -/
def noiseSample (noiseType : String) (rand : ℕ → ℚ) (i : ℕ) : ℚ :=
  if noiseType = "white" then whiteSample rand i
  else if noiseType = "pink" then pinkSample rand i
  else if noiseType = "brown" then brownSample rand i
  else 0

/-- `createNoiseBuffer(noiseType)`: a 2-second buffer at the audio
context's sample rate (`this.audioContext.sampleRate * 2` samples). -/
def createNoiseBuffer (s : EngineState) (noiseType : String) (rand : ℕ → ℚ) : List ℚ :=
  let bufferSize := s.ctxSampleRate * 2
  (List.range bufferSize).map (noiseSample noiseType rand)

/-- `initialize()`: creates the `AudioContext` (its sample rate chosen
by the environment) and the master gain at `0.7`; `ctxOk` models
whether context creation succeeds (a failure is rethrown). -/
def initEngine (s : EngineState) (hwSampleRate : ℕ) (ctxOk : Bool) : Except String EngineState :=
  if s.isInitialized then .ok s
  else if ctxOk then
    .ok { s with hasContext := true, ctxSampleRate := hwSampleRate,
                 masterGain := some { base := 0.7, events := [] },
                 isInitialized := true,
                 log := "Audio Engine initialized successfully" :: s.log }
  else .error "Failed to initialize audio engine"

/-- `createLayer(layerId, volume)` (the source's default for `volume`
is `0.6`; callers of the model pass it explicitly). -/
def createLayer (s : EngineState) (layerId : String) (volume : ℚ) : Except String EngineState :=
  if ¬ s.isInitialized then .error "Audio engine not initialized"
  else if (lookupLayer s layerId).isSome then
    .ok { s with log := ("Layer " ++ layerId ++ " already exists") :: s.log }
  else
    .ok { s with
      layers := s.layers ++ [(layerId,
        { id := layerId, audioElement := none, sourceNode := none,
          gainNode := { base := volume, events := [] },
          analyserFftSize := 256, currentSound := none, isPlaying := false,
          volume := volume, noiseBuffer := none, noiseSource := none })],
      log := ("Created layer: " ++ layerId) :: s.log }

/-- `fadeIn(layerId)`: cancel pending automation, pin the gain to `0`
now, ramp linearly to the layer's stored volume over `fadeDuration`. -/
def fadeIn (s : EngineState) (layerId : String) : EngineState :=
  match lookupLayer s layerId with
  | none => s
  | some layer =>
    let currentTime := s.now
    let targetVolume := layer.volume
    updateLayer s layerId (fun l =>
      let pinned := (l.gainNode.cancelScheduledValues currentTime).setValueAtTime 0 currentTime
      { l with gainNode :=
          pinned.linearRampToValueAtTime targetVolume (currentTime + s.config.fadeDuration) })

/-- `fadeOut(layerId, callback)`: cancel pending automation, anchor the
current gain value, ramp to `0` over `fadeDuration`; when a callback is
supplied, `setTimeout` schedules it `fadeDuration` seconds later (the
handle is never stored, so the timer cannot be cancelled). -/
def fadeOut (s : EngineState) (layerId : String) (hasCallback : Bool) : EngineState :=
  match lookupLayer s layerId with
  | none => s
  | some _ =>
    let currentTime := s.now
    let s1 := updateLayer s layerId (fun l =>
      let canceled := l.gainNode.cancelScheduledValues currentTime
      let anchored := canceled.setValueAtTime (canceled.valueAt currentTime) currentTime
      { l with gainNode :=
          anchored.linearRampToValueAtTime 0 (currentTime + s.config.fadeDuration) })
    if hasCallback then
      { s1 with pendingTimers :=
          s1.pendingTimers ++ [{ fireAt := currentTime + s.config.fadeDuration, layerId := layerId }] }
    else s1

/-- `_stopLayerImmediately(layerId)`: pause and drop the audio element
and sources, null out `currentSound`, clear `isPlaying`. -/
def _stopLayerImmediately (s : EngineState) (layerId : String) : EngineState :=
  match lookupLayer s layerId with
  | none => s
  | some _ =>
    let s1 := updateLayer s layerId (fun l =>
      { l with audioElement := none, noiseSource := none, sourceNode := none,
               currentSound := none, isPlaying := false })
    { s1 with log := ("Stopped layer: " ++ layerId) :: s1.log }

/-- `stopLayer(layerId)`: fade out with teardown as the completion
callback when crossfade is enabled and the layer is playing; otherwise
tear down immediately. -/
def stopLayer (s : EngineState) (layerId : String) : EngineState :=
  match lookupLayer s layerId with
  | none => s
  | some layer =>
    if s.config.enableCrossfade && layer.isPlaying then
      fadeOut s layerId true
    else
      _stopLayerImmediately s layerId

/-- `generateTone(layerId, frequency)`: binds a sine oscillator as the
layer's source (the fallback path). -/
def generateTone (s : EngineState) (layerId : String) (frequency : ℚ) : EngineState :=
  match lookupLayer s layerId with
  | none => s
  | some _ =>
    let s1 := updateLayer s layerId (fun l =>
      { l with sourceNode := some (SourceNode.oscillator frequency),
               currentSound := some ("tone/" ++ toString frequency ++ "Hz"),
               isPlaying := true })
    { s1 with log := ("Playing fallback tone: " ++ toString frequency ++ "Hz on layer " ++ layerId) :: s1.log }

/-- `generateAndPlayNoise(layerId, noiseType)`: get-or-create the
cached buffer for the color, bind it as a looping buffer source, then
fade in when crossfade is enabled. -/
def generateAndPlayNoise (s : EngineState) (layerId noiseType : String) (rand : ℕ → ℚ) : EngineState :=
  match lookupLayer s layerId with
  | none => s
  | some _ =>
    let s1 :=
      if (s.noiseGenerators.find? (fun p => p.1 == noiseType)).isSome then s
      else { s with noiseGenerators :=
              s.noiseGenerators ++ [(noiseType, createNoiseBuffer s noiseType rand)] }
    match s1.noiseGenerators.find? (fun p => p.1 == noiseType) with
    | none => s1
    | some pr =>
      let source := SourceNode.bufferSource pr.2
      let s2 := updateLayer s1 layerId (fun l =>
        { l with noiseSource := some source, sourceNode := some source,
                 currentSound := some ("noise/" ++ noiseType), isPlaying := true })
      let s3 := if s2.config.enableCrossfade then fadeIn s2 layerId else s2
      { s3 with log := ("Playing " ++ noiseType ++ " noise on layer " ++ layerId) :: s3.log }

/-- `loadAndPlayAudio(layerId, soundType, soundName)`: stop the current
sound, route generated noise to the synthesizer, otherwise resolve the
library path: a missing entry or a load/decode failure (`decodeOk`)
falls back to a 220 Hz tone. -/
def loadAndPlayAudio (s : EngineState) (layerId soundType soundName : String)
    (rand : ℕ → ℚ) (decodeOk : Bool) : Except String EngineState :=
  match lookupLayer s layerId with
  | none => .error ("Layer " ++ layerId ++ " not found")
  | some _ =>
    let s1 := stopLayer s layerId
    if soundType = "noise" ∧ (soundName = "white" ∨ soundName = "pink" ∨ soundName = "brown") then
      .ok (generateAndPlayNoise s1 layerId soundName rand)
    else
      match audioLibrary soundType soundName with
      | none =>
          .ok (generateTone
            { s1 with log := ("Audio not found: " ++ soundType ++ "/" ++ soundName) :: s1.log }
            layerId 220)
      | some none =>
          .ok (generateTone
            { s1 with log := ("Audio not found: " ++ soundType ++ "/" ++ soundName) :: s1.log }
            layerId 220)
      | some (some audioPath) =>
          let s2 := updateLayer s1 layerId (fun l =>
            { l with audioElement := some { path := audioPath, loop := s1.config.loopLayers },
                     sourceNode := some (SourceNode.mediaElement audioPath),
                     currentSound := some (soundType ++ "/" ++ soundName) })
          let s3 := if s2.config.enableCrossfade then fadeIn s2 layerId else s2
          if decodeOk then
            .ok { (updateLayer s3 layerId (fun l => { l with isPlaying := true })) with
                  log := ("Playing audio: " ++ soundType ++ "/" ++ soundName ++ " on layer " ++ layerId) :: s3.log }
          else
            .ok (generateTone
              { s3 with log := ("Error loading audio for " ++ layerId) :: s3.log }
              layerId 220)

/-- `setLayerVolume(layerId, volume)`: store the volume; if playing,
anchor the current gain and ramp to the new value over 50 ms, else set
the gain value directly. -/
def setLayerVolume (s : EngineState) (layerId : String) (volume : ℚ) : EngineState :=
  match lookupLayer s layerId with
  | none => s
  | some layer =>
    let s1 := updateLayer s layerId (fun l => { l with volume := volume })
    if layer.isPlaying then
      let currentTime := s.now
      updateLayer s1 layerId (fun l =>
        let canceled := l.gainNode.cancelScheduledValues currentTime
        let anchored := canceled.setValueAtTime (canceled.valueAt currentTime) currentTime
        { l with gainNode := anchored.linearRampToValueAtTime volume (currentTime + 0.05) })
    else
      updateLayer s1 layerId (fun l => { l with gainNode := l.gainNode.setValueDirect volume })

/-- `setMasterVolume(volume)`: 50 ms anchored ramp on the master gain. -/
def setMasterVolume (s : EngineState) (volume : ℚ) : EngineState :=
  match s.masterGain with
  | none => s
  | some g =>
    let currentTime := s.now
    let canceled := g.cancelScheduledValues currentTime
    let anchored := canceled.setValueAtTime (canceled.valueAt currentTime) currentTime
    { s with masterGain := some (anchored.linearRampToValueAtTime volume (currentTime + 0.05)) }

/-- `getAnalyserData(layerId)`: `null` for an unknown or non-playing
layer, otherwise `frequencyBinCount` (= `fftSize / 2`) bytes supplied
by the analyser (`analyserBytes` models `getByteTimeDomainData`). -/
def getAnalyserData (s : EngineState) (layerId : String) (analyserBytes : ℕ → ℕ) : Option (List ℕ) :=
  match lookupLayer s layerId with
  | none => none
  | some layer =>
    if layer.isPlaying then
      some ((List.range (layer.analyserFftSize / 2)).map analyserBytes)
    else none

/-- `stopAll()`: stop every layer that is playing (reading each layer's
live state at visit time, as `Map.forEach` over mutable objects does). -/
def stopAll (s : EngineState) : EngineState :=
  (s.layers.map Prod.fst).foldl (fun acc layerId =>
    match lookupLayer acc layerId with
    | none => acc
    | some layer => if layer.isPlaying then stopLayer acc layerId else acc) s

/-- `playAll()`: re-issue play for every layer that has a remembered
`currentSound` and is not playing. -/
def playAll (s : EngineState) (rand : ℕ → ℚ) (decodeOk : Bool) : EngineState :=
  (s.layers.map Prod.fst).foldl (fun acc layerId =>
    match lookupLayer acc layerId with
    | none => acc
    | some layer =>
      match layer.currentSound with
      | none => acc
      | some cs =>
        if layer.isPlaying then acc
        else
          let parts := cs.splitOn "/"
          match loadAndPlayAudio acc layerId (parts.getD 0 "") (parts.getD 1 "") rand decodeOk with
          | .ok s' => s'
          | .error _ => acc) s

/-- A partial configuration object passed to `updateConfig`. -/
structure ConfigUpdate where
  fadeDuration : Option ℚ
  enableCrossfade : Option Bool
  loopLayers : Option Bool
  sampleRate : Option ℕ
deriving DecidableEq

/-- `updateConfig(config)`: merge the recognized options and apply a
`loopLayers` change retroactively to bound audio elements. -/
def updateConfig (s : EngineState) (c : ConfigUpdate) : EngineState :=
  let cfg : Config :=
    { fadeDuration := c.fadeDuration.getD s.config.fadeDuration,
      enableCrossfade := c.enableCrossfade.getD s.config.enableCrossfade,
      loopLayers := c.loopLayers.getD s.config.loopLayers,
      sampleRate := c.sampleRate.getD s.config.sampleRate }
  let s1 := { s with config := cfg }
  match c.loopLayers with
  | none => s1
  | some loop =>
    { s1 with layers := s1.layers.map (fun p =>
        (p.1, { p.2 with audioElement := p.2.audioElement.map (fun a => { a with loop := loop }) })) }

/-- The host event loop running the earliest-due `setTimeout` callback
(ties resolved in scheduling order); no-op when nothing is due. -/
def fireDueTimer (s : EngineState) : EngineState :=
  match (s.pendingTimers.filter (fun tm => decide (tm.fireAt ≤ s.now))).foldl
      (fun (best : Option Timer) tm =>
        match best with
        | none => some tm
        | some b => if tm.fireAt < b.fireAt then some tm else best) none with
  | none => s
  | some tm =>
      _stopLayerImmediately { s with pendingTimers := s.pendingTimers.erase tm } tm.layerId

/-- The clock advancing by `δ` (both the audio clock and the wall clock
of `setTimeout`, merged in this model). -/
def advanceTime (s : EngineState) (δ : ℚ) : EngineState :=
  { s with now := s.now + δ }

/-- The command surface driven by the single control thread, plus the
two environment steps (clock advance, timer firing). -/
inductive Cmd where
  | initCtx (hwSampleRate : ℕ) (ctxOk : Bool)
  | createLayer (layerId : String) (volume : ℚ)
  | play (layerId soundType soundName : String) (decodeOk : Bool)
  | stop (layerId : String)
  | stopAll
  | playAll (decodeOk : Bool)
  | setLayerVolume (layerId : String) (volume : ℚ)
  | setMasterVolume (volume : ℚ)
  | setConfig (c : ConfigUpdate)
  | advance (δ : ℚ)
  | fireTimer
deriving DecidableEq

/-- One command against the engine; a thrown error is caught by the
caller and, since every throw precedes any mutation, leaves the
engine state unchanged. -/
def step (rand : ℕ → ℚ) (c : Cmd) (s : EngineState) : EngineState :=
  match c with
  | .initCtx hw ok =>
      match initEngine s hw ok with | .ok s' => s' | .error _ => s
  | .createLayer layerId v =>
      match createLayer s layerId v with | .ok s' => s' | .error _ => s
  | .play layerId ty nm ok =>
      match loadAndPlayAudio s layerId ty nm rand ok with | .ok s' => s' | .error _ => s
  | .stop layerId => stopLayer s layerId
  | .stopAll => stopAll s
  | .playAll ok => playAll s rand ok
  | .setLayerVolume layerId v => setLayerVolume s layerId v
  | .setMasterVolume v => setMasterVolume s v
  | .setConfig c => updateConfig s c
  | .advance δ => advanceTime s δ
  | .fireTimer => fireDueTimer s

/-- A command sequence from a starting state. -/
def run (rand : ℕ → ℚ) (cmds : List Cmd) (s : EngineState) : EngineState :=
  cmds.foldl (fun acc c => step rand c acc) s

/-- Modelled from the spec: the six pink-noise decay factors, in the
order the spec lists them. -/
def specPinkDecay : ℕ → ℚ
  | 0 => 0.99886
  | 1 => 0.99332
  | 2 => 0.96900
  | 3 => 0.86650
  | 4 => 0.55000
  | 5 => -0.7616
  | _ => 0

/-- Modelled from the spec: the six input gains paired with the decay
factors above. -/
def specPinkGain : ℕ → ℚ
  | 0 => 0.0555179
  | 1 => 0.0750759
  | 2 => 0.1538520
  | 3 => 0.3104856
  | 4 => 0.5329522
  | 5 => -0.0168980
  | _ => 0

/-- Modelled from the spec: the `k`-th recursive filter state after
absorbing the first `n` white draws; all states start at 0. -/
def specPinkFilter (rand : ℕ → ℚ) (k : ℕ) : ℕ → ℚ
  | 0 => 0
  | n + 1 => specPinkDecay k * specPinkFilter rand k n + specPinkGain k * whiteSample rand n

/-- Modelled from the spec: the seventh state carrying a one-sample
delayed white contribution with gain `0.115926`; starts at 0. -/
def specPinkDelayed (rand : ℕ → ℚ) : ℕ → ℚ
  | 0 => 0
  | n + 1 => 0.115926 * whiteSample rand n

/-- Modelled from the spec: output sample `i` is the sum of the six
filter states (updated with draw `i`), the delayed white state, and a
direct white term with gain `0.5362`, all scaled by `0.11`. -/
def specPinkSample (rand : ℕ → ℚ) (i : ℕ) : ℚ :=
  ((∑ k ∈ Finset.range 6, specPinkFilter rand k (i + 1)) + specPinkDelayed rand i
    + 0.5362 * whiteSample rand i) * 0.11

/-- Gain params whose intrinsic value and every scheduled target lie in
`[0, 1]`. -/
def paramOK (p : GainParam) : Prop :=
  0 ≤ p.base ∧ p.base ≤ 1 ∧ ∀ e ∈ p.events, 0 ≤ e.val ∧ e.val ≤ 1

/-- Layers whose stored volume and gain param are within `[0, 1]`. -/
def layerOK (l : Layer) : Prop :=
  0 ≤ l.volume ∧ l.volume ≤ 1 ∧ paramOK l.gainNode

/-- The claimed engine-wide invariant: master gain and every layer's
volume and gain stay within `[0, 1]`. -/
def EngineInv (s : EngineState) : Prop :=
  (∀ g ∈ s.masterGain.toList, paramOK g) ∧ ∀ p ∈ s.layers, layerOK p.2

instance (p : GainParam) : Decidable (paramOK p) := by
  unfold paramOK; exact inferInstance

instance (l : Layer) : Decidable (layerOK l) := by
  unfold layerOK; exact inferInstance

instance (s : EngineState) : Decidable (EngineInv s) := by
  unfold EngineInv; exact inferInstance

/-- Commands whose volume argument (when they have one) is in `[0, 1]`. -/
def goodCmd : Cmd → Prop
  | .createLayer _ v => 0 ≤ v ∧ v ≤ 1
  | .setLayerVolume _ v => 0 ≤ v ∧ v ≤ 1
  | .setMasterVolume v => 0 ≤ v ∧ v ≤ 1
  | _ => True

instance (c : Cmd) : Decidable (goodCmd c) := by
  unfold goodCmd; cases c <;> exact inferInstance

lemma find?_update_list (layerId : String) (f : Layer → Layer) (L : List (String × Layer)) :
    (L.map (fun p => if p.1 == layerId then (p.1, f p.2) else p)).find? (fun p => p.1 == layerId)
      = (L.find? (fun p => p.1 == layerId)).map (fun p => if p.1 == layerId then (p.1, f p.2) else p) := by
  rw [List.find?_map]
  have hcomp : ((fun p : String × Layer => p.1 == layerId)
        ∘ fun p : String × Layer => if p.1 == layerId then (p.1, f p.2) else p)
      = fun p : String × Layer => p.1 == layerId := by
    funext p
    by_cases h : p.1 = layerId <;> simp [Function.comp, h]
  rw [hcomp]

lemma lookupLayer_updateLayer_self (s : EngineState) (layerId : String) (f : Layer → Layer) :
    lookupLayer (updateLayer s layerId f) layerId = (lookupLayer s layerId).map f := by
  unfold lookupLayer updateLayer
  simp only [find?_update_list]
  cases hfind : s.layers.find? (fun p => p.1 == layerId) with
  | none => simp
  | some pr =>
      have hp := List.find?_some hfind
      have hkey : pr.1 = layerId := by simpa using hp
      simp [hkey]

lemma lookupLayer_mem {s : EngineState} {layerId : String} {l : Layer}
    (h : lookupLayer s layerId = some l) : ∃ k, (k, l) ∈ s.layers ∧ (k == layerId) = true := by
  unfold lookupLayer at h
  cases hfind : s.layers.find? (fun p => p.1 == layerId) with
  | none => rw [hfind] at h; exact absurd h (by simp)
  | some pr =>
      rw [hfind] at h
      have h2 : pr.2 = l := by simpa using h
      have hp := List.find?_some hfind
      refine ⟨pr.1, ?_, by simpa using hp⟩
      have hm := List.mem_of_find?_eq_some hfind
      rw [← h2]
      simpa using hm

lemma pinkStateAt_b0 (rand : ℕ → ℚ) (n : ℕ) :
    (pinkStateAt rand n).b0 = specPinkFilter rand 0 n := by
  induction n with
  | zero => rfl
  | succ n ih => simp [pinkStateAt, pinkStep, specPinkFilter, specPinkDecay, specPinkGain, ih]; ring

lemma pinkStateAt_b1 (rand : ℕ → ℚ) (n : ℕ) :
    (pinkStateAt rand n).b1 = specPinkFilter rand 1 n := by
  induction n with
  | zero => rfl
  | succ n ih => simp [pinkStateAt, pinkStep, specPinkFilter, specPinkDecay, specPinkGain, ih]; ring

lemma pinkStateAt_b2 (rand : ℕ → ℚ) (n : ℕ) :
    (pinkStateAt rand n).b2 = specPinkFilter rand 2 n := by
  induction n with
  | zero => rfl
  | succ n ih => simp [pinkStateAt, pinkStep, specPinkFilter, specPinkDecay, specPinkGain, ih]; ring

lemma pinkStateAt_b3 (rand : ℕ → ℚ) (n : ℕ) :
    (pinkStateAt rand n).b3 = specPinkFilter rand 3 n := by
  induction n with
  | zero => rfl
  | succ n ih => simp [pinkStateAt, pinkStep, specPinkFilter, specPinkDecay, specPinkGain, ih]; ring

lemma pinkStateAt_b4 (rand : ℕ → ℚ) (n : ℕ) :
    (pinkStateAt rand n).b4 = specPinkFilter rand 4 n := by
  induction n with
  | zero => rfl
  | succ n ih => simp [pinkStateAt, pinkStep, specPinkFilter, specPinkDecay, specPinkGain, ih]; ring

lemma pinkStateAt_b5 (rand : ℕ → ℚ) (n : ℕ) :
    (pinkStateAt rand n).b5 = specPinkFilter rand 5 n := by
  induction n with
  | zero => rfl
  | succ n ih => simp [pinkStateAt, pinkStep, specPinkFilter, specPinkDecay, specPinkGain, ih]; ring

lemma pinkStateAt_b6 (rand : ℕ → ℚ) (n : ℕ) :
    (pinkStateAt rand n).b6 = specPinkDelayed rand n := by
  induction n with
  | zero => rfl
  | succ n _ => simp [pinkStateAt, pinkStep, specPinkDelayed]; ring

lemma valueFrom_bounds (t : ℚ) (evs : List AutomEvent) :
    ∀ cur curT : ℚ, 0 ≤ cur → cur ≤ 1 → (∀ e ∈ evs, 0 ≤ e.val ∧ e.val ≤ 1) →
      0 ≤ valueFrom t cur curT evs ∧ valueFrom t cur curT evs ≤ 1 := by
  induction evs with
  | nil => intro cur curT h0 h1 _; exact ⟨h0, h1⟩
  | cons e rest ih =>
      intro cur curT h0 h1 hev
      have hehd : 0 ≤ e.val ∧ e.val ≤ 1 := hev e (List.mem_cons_self e rest)
      have hrest : ∀ e' ∈ rest, 0 ≤ e'.val ∧ e'.val ≤ 1 :=
        fun e' he' => hev e' (List.mem_cons_of_mem e he')
      cases e with
      | setValue v te =>
          have hv := hehd
          simp only [AutomEvent.val] at hv
          by_cases hte : te ≤ t
          · simpa [valueFrom, hte] using ih v te hv.1 hv.2 hrest
          · simpa [valueFrom, hte] using ⟨h0, h1⟩
      | linearRamp v te =>
          have hv := hehd
          simp only [AutomEvent.val] at hv
          by_cases hte : te ≤ t
          · simpa [valueFrom, hte] using ih v te hv.1 hv.2 hrest
          · by_cases htc : t ≤ curT
            · simpa [valueFrom, hte, htc] using ⟨h0, h1⟩
            · have h1t : curT < t := lt_of_not_ge htc
              have h2t : t < te := lt_of_not_ge hte
              have hden : (0 : ℚ) < te - curT := by linarith
              have hnum : (0 : ℚ) < t - curT := by linarith
              have hr0 : 0 ≤ (t - curT) / (te - curT) := le_of_lt (div_pos hnum hden)
              have hr1 : (t - curT) / (te - curT) ≤ 1 := by
                rw [div_le_one hden]; linarith
              have hval : valueFrom t cur curT (AutomEvent.linearRamp v te :: rest)
                  = cur + (v - cur) * ((t - curT) / (te - curT)) := by
                simp [valueFrom, hte, htc]; ring
              rw [hval]
              set r := (t - curT) / (te - curT) with hrdef
              constructor
              · nlinarith [mul_nonneg hv.1 hr0, mul_nonneg h0 (sub_nonneg.mpr hr1)]
              · nlinarith [mul_nonneg (sub_nonneg.mpr hv.2) hr0,
                  mul_nonneg (sub_nonneg.mpr h1) (sub_nonneg.mpr hr1)]

lemma paramOK_valueAt {p : GainParam} (h : paramOK p) (t : ℚ) :
    0 ≤ p.valueAt t ∧ p.valueAt t ≤ 1 :=
  valueFrom_bounds t p.events p.base t h.1 h.2.1 h.2.2

lemma paramOK_cancelScheduledValues {p : GainParam} (h : paramOK p) (t : ℚ) :
    paramOK (p.cancelScheduledValues t) := by
  refine ⟨h.1, h.2.1, fun e he => ?_⟩
  exact h.2.2 e (List.mem_of_mem_filter he)

lemma paramOK_setValueAtTime {p : GainParam} (h : paramOK p) {v : ℚ} (t : ℚ)
    (hv0 : 0 ≤ v) (hv1 : v ≤ 1) : paramOK (p.setValueAtTime v t) := by
  refine ⟨h.1, h.2.1, fun e he => ?_⟩
  rcases List.mem_append.1 he with h' | h'
  · exact h.2.2 e h'
  · rcases List.mem_singleton.1 h' with rfl
    exact ⟨hv0, hv1⟩

lemma paramOK_linearRampToValueAtTime {p : GainParam} (h : paramOK p) {v : ℚ} (t : ℚ)
    (hv0 : 0 ≤ v) (hv1 : v ≤ 1) : paramOK (p.linearRampToValueAtTime v t) := by
  refine ⟨h.1, h.2.1, fun e he => ?_⟩
  rcases List.mem_append.1 he with h' | h'
  · exact h.2.2 e h'
  · rcases List.mem_singleton.1 h' with rfl
    exact ⟨hv0, hv1⟩

lemma paramOK_setValueDirect {p : GainParam} (h : paramOK p) {v : ℚ}
    (hv0 : 0 ≤ v) (hv1 : v ≤ 1) : paramOK (p.setValueDirect v) :=
  ⟨hv0, hv1, h.2.2⟩

/-- C5: the pink-noise generator computes each output sample as the sum
of the six recursive filter states (decay factors 0.99886, 0.99332,
0.96900, 0.86650, 0.55000, -0.7616 with input gains 0.0555179,
0.0750759, 0.1538520, 0.3104856, 0.5329522, -0.0168980), plus the
one-sample-delayed white state (gain 0.115926) and a direct white term
(gain 0.5362), all scaled by 0.11, with all states starting at 0. -/
theorem pinkSample_eq_specPinkSample (rand : ℕ → ℚ) (i : ℕ) :
    pinkSample rand i = specPinkSample rand i := by
  unfold pinkSample specPinkSample
  simp only [pinkStep, Finset.sum_range_succ, Finset.sum_range_zero]
  rw [show ∀ n, specPinkFilter rand 0 (n + 1)
        = specPinkDecay 0 * specPinkFilter rand 0 n + specPinkGain 0 * whiteSample rand n
      from fun n => rfl]
  rw [show ∀ n, specPinkFilter rand 1 (n + 1)
        = specPinkDecay 1 * specPinkFilter rand 1 n + specPinkGain 1 * whiteSample rand n
      from fun n => rfl]
  rw [show ∀ n, specPinkFilter rand 2 (n + 1)
        = specPinkDecay 2 * specPinkFilter rand 2 n + specPinkGain 2 * whiteSample rand n
      from fun n => rfl]
  rw [show ∀ n, specPinkFilter rand 3 (n + 1)
        = specPinkDecay 3 * specPinkFilter rand 3 n + specPinkGain 3 * whiteSample rand n
      from fun n => rfl]
  rw [show ∀ n, specPinkFilter rand 4 (n + 1)
        = specPinkDecay 4 * specPinkFilter rand 4 n + specPinkGain 4 * whiteSample rand n
      from fun n => rfl]
  rw [show ∀ n, specPinkFilter rand 5 (n + 1)
        = specPinkDecay 5 * specPinkFilter rand 5 n + specPinkGain 5 * whiteSample rand n
      from fun n => rfl]
  rw [pinkStateAt_b0, pinkStateAt_b1, pinkStateAt_b2, pinkStateAt_b3, pinkStateAt_b4,
    pinkStateAt_b5, pinkStateAt_b6]
  simp only [specPinkDecay, specPinkGain]
  ring


lemma EngineInv_updateLayer {s : EngineState} {layerId : String} {f : Layer → Layer}
    (hs : EngineInv s) (hf : ∀ q ∈ s.layers, layerOK q.2 → layerOK (f q.2)) :
    EngineInv (updateLayer s layerId f) := by
  refine ⟨hs.1, ?_⟩
  intro p hp
  unfold updateLayer at hp
  simp only at hp
  rcases List.mem_map.1 hp with ⟨q, hq, rfl⟩
  by_cases h : q.1 = layerId
  · simpa [h] using hf q hq (hs.2 q hq)
  · simpa [h] using hs.2 q hq

lemma EngineInv__stopLayerImmediately {s : EngineState} (layerId : String)
    (hs : EngineInv s) : EngineInv (_stopLayerImmediately s layerId) := by
  unfold _stopLayerImmediately
  cases hl : lookupLayer s layerId with
  | none => exact hs
  | some _ =>
      have h1 : EngineInv (updateLayer s layerId (fun l =>
          { l with audioElement := none, noiseSource := none, sourceNode := none,
                   currentSound := none, isPlaying := false })) :=
        EngineInv_updateLayer hs (fun q _ hOK => ⟨hOK.1, hOK.2.1, hOK.2.2⟩)
      exact ⟨h1.1, h1.2⟩

lemma EngineInv_fadeIn {s : EngineState} (layerId : String) (hs : EngineInv s) :
    EngineInv (fadeIn s layerId) := by
  unfold fadeIn
  cases hl : lookupLayer s layerId with
  | none => exact hs
  | some layer =>
      obtain ⟨k, hk, _⟩ := lookupLayer_mem hl
      have hvol := hs.2 _ hk
      refine EngineInv_updateLayer hs ?_
      intro q _ hOK
      refine ⟨hOK.1, hOK.2.1, ?_⟩
      exact paramOK_linearRampToValueAtTime
        (paramOK_setValueAtTime (paramOK_cancelScheduledValues hOK.2.2 _) _ le_rfl zero_le_one)
        _ hvol.1 hvol.2.1

lemma EngineInv_fadeOut {s : EngineState} (layerId : String) (cb : Bool) (hs : EngineInv s) :
    EngineInv (fadeOut s layerId cb) := by
  unfold fadeOut
  cases hl : lookupLayer s layerId with
  | none => exact hs
  | some layer =>
      have hupd : EngineInv (updateLayer s layerId (fun l =>
          let canceled := l.gainNode.cancelScheduledValues s.now
          let anchored := canceled.setValueAtTime (canceled.valueAt s.now) s.now
          { l with gainNode :=
              anchored.linearRampToValueAtTime 0 (s.now + s.config.fadeDuration) })) := by
        refine EngineInv_updateLayer hs ?_
        intro q _ hOK
        refine ⟨hOK.1, hOK.2.1, ?_⟩
        have hcanc := paramOK_cancelScheduledValues hOK.2.2 s.now
        have hv := paramOK_valueAt hcanc s.now
        exact paramOK_linearRampToValueAtTime
          (paramOK_setValueAtTime hcanc _ hv.1 hv.2) _ le_rfl zero_le_one
      by_cases hcb : cb = true
      · simp only [hcb, if_true]
        exact ⟨hupd.1, hupd.2⟩
      · simp only [Bool.not_eq_true] at hcb
        simp only [hcb, Bool.false_eq_true, if_false]
        exact hupd

lemma EngineInv_stopLayer {s : EngineState} (layerId : String) (hs : EngineInv s) :
    EngineInv (stopLayer s layerId) := by
  unfold stopLayer
  cases hl : lookupLayer s layerId with
  | none => exact hs
  | some layer =>
      by_cases h : (s.config.enableCrossfade && layer.isPlaying) = true
      · simp only [h, if_true]
        exact EngineInv_fadeOut layerId true hs
      · simp only [Bool.not_eq_true] at h
        simp only [h, Bool.false_eq_true, if_false]
        exact EngineInv__stopLayerImmediately layerId hs

lemma EngineInv_generateTone {s : EngineState} (layerId : String) (freq : ℚ)
    (hs : EngineInv s) : EngineInv (generateTone s layerId freq) := by
  unfold generateTone
  cases hl : lookupLayer s layerId with
  | none => exact hs
  | some _ =>
      have h1 : EngineInv (updateLayer s layerId (fun l =>
          { l with sourceNode := some (SourceNode.oscillator freq),
                   currentSound := some ("tone/" ++ toString freq ++ "Hz"),
                   isPlaying := true })) :=
        EngineInv_updateLayer hs (fun q _ hOK => ⟨hOK.1, hOK.2.1, hOK.2.2⟩)
      exact ⟨h1.1, h1.2⟩

lemma EngineInv_generateAndPlayNoise {s : EngineState} (layerId noiseType : String)
    (rand : ℕ → ℚ) (hs : EngineInv s) :
    EngineInv (generateAndPlayNoise s layerId noiseType rand) := by
  unfold generateAndPlayNoise
  cases hl : lookupLayer s layerId with
  | none => exact hs
  | some _ =>
      have key : ∀ s1 : EngineState, EngineInv s1 →
          EngineInv (match s1.noiseGenerators.find? (fun p => p.1 == noiseType) with
            | none => s1
            | some pr =>
              let source := SourceNode.bufferSource pr.2
              let s2 := updateLayer s1 layerId (fun l =>
                { l with noiseSource := some source, sourceNode := some source,
                         currentSound := some ("noise/" ++ noiseType), isPlaying := true })
              let s3 := if s2.config.enableCrossfade then fadeIn s2 layerId else s2
              { s3 with log := ("Playing " ++ noiseType ++ " noise on layer " ++ layerId) :: s3.log }) := by
        intro s1 h1
        cases hfind : s1.noiseGenerators.find? (fun p => p.1 == noiseType) with
        | none => exact h1
        | some pr =>
            have h2 : EngineInv (updateLayer s1 layerId (fun l =>
                { l with noiseSource := some (SourceNode.bufferSource pr.2),
                         sourceNode := some (SourceNode.bufferSource pr.2),
                         currentSound := some ("noise/" ++ noiseType), isPlaying := true })) :=
              EngineInv_updateLayer h1 (fun q _ hOK => ⟨hOK.1, hOK.2.1, hOK.2.2⟩)
            by_cases hcf : (updateLayer s1 layerId (fun l =>
                { l with noiseSource := some (SourceNode.bufferSource pr.2),
                         sourceNode := some (SourceNode.bufferSource pr.2),
                         currentSound := some ("noise/" ++ noiseType),
                         isPlaying := true })).config.enableCrossfade = true
            · have h3 := EngineInv_fadeIn layerId h2
              simp only [hcf, if_true]
              exact ⟨h3.1, h3.2⟩
            · simp only [Bool.not_eq_true] at hcf
              simp only [hcf, Bool.false_eq_true, if_false]
              exact ⟨h2.1, h2.2⟩
      by_cases hc : (s.noiseGenerators.find? (fun p => p.1 == noiseType)).isSome = true
      · simp only [hc, if_true]
        exact key s hs
      · simp only [Bool.not_eq_true] at hc
        simp only [hc, Bool.false_eq_true, if_false]
        exact key { s with noiseGenerators :=
            s.noiseGenerators ++ [(noiseType, createNoiseBuffer s noiseType rand)] } ⟨hs.1, hs.2⟩

lemma EngineInv_loadAndPlayAudio {s s' : EngineState} {layerId soundType soundName : String}
    {rand : ℕ → ℚ} {decodeOk : Bool}
    (h : loadAndPlayAudio s layerId soundType soundName rand decodeOk = .ok s')
    (hs : EngineInv s) : EngineInv s' := by
  unfold loadAndPlayAudio at h
  cases hl : lookupLayer s layerId with
  | none => rw [hl] at h; cases h
  | some layer =>
      rw [hl] at h
      simp only at h
      have hstop : EngineInv (stopLayer s layerId) := EngineInv_stopLayer layerId hs
      by_cases hn : soundType = "noise" ∧ (soundName = "white" ∨ soundName = "pink" ∨ soundName = "brown")
      · rw [if_pos hn] at h
        have hx := Except.ok.inj h
        subst hx
        exact EngineInv_generateAndPlayNoise layerId soundName rand hstop
      · rw [if_neg hn] at h
        cases hlib : audioLibrary soundType soundName with
        | none =>
            rw [hlib] at h
            have hx := Except.ok.inj h
            subst hx
            exact EngineInv_generateTone layerId 220 ⟨hstop.1, hstop.2⟩
        | some opt =>
            cases opt with
            | none =>
                rw [hlib] at h
                have hx := Except.ok.inj h
                subst hx
                exact EngineInv_generateTone layerId 220 ⟨hstop.1, hstop.2⟩
            | some audioPath =>
                rw [hlib] at h
                simp only at h
                have h2 : EngineInv (updateLayer (stopLayer s layerId) layerId (fun l =>
                    { l with audioElement := some (AudioElem.mk audioPath (stopLayer s layerId).config.loopLayers),
                             sourceNode := some (SourceNode.mediaElement audioPath),
                             currentSound := some (soundType ++ "/" ++ soundName) })) :=
                  EngineInv_updateLayer hstop (fun q _ hOK => ⟨hOK.1, hOK.2.1, hOK.2.2⟩)
                set s2 := updateLayer (stopLayer s layerId) layerId (fun l =>
                    { l with audioElement := some (AudioElem.mk audioPath (stopLayer s layerId).config.loopLayers),
                             sourceNode := some (SourceNode.mediaElement audioPath),
                             currentSound := some (soundType ++ "/" ++ soundName) }) with hs2
                have h3 : EngineInv (if s2.config.enableCrossfade then fadeIn s2 layerId else s2) := by
                  by_cases hcf : s2.config.enableCrossfade = true
                  · simp only [hcf, if_true]
                    exact EngineInv_fadeIn layerId h2
                  · simp only [Bool.not_eq_true] at hcf
                    simp only [hcf, Bool.false_eq_true, if_false]
                    exact h2
                set s3 := if s2.config.enableCrossfade then fadeIn s2 layerId else s2 with hs3
                by_cases hok : decodeOk = true
                · rw [if_pos hok] at h
                  have hx := Except.ok.inj h
                  subst hx
                  have h4 : EngineInv (updateLayer s3 layerId (fun l => { l with isPlaying := true })) :=
                    EngineInv_updateLayer h3 (fun q _ hOK => ⟨hOK.1, hOK.2.1, hOK.2.2⟩)
                  exact ⟨h4.1, h4.2⟩
                · simp only [Bool.not_eq_true] at hok
                  rw [hok] at h
                  simp only [Bool.false_eq_true, if_false] at h
                  have hx := Except.ok.inj h
                  subst hx
                  exact EngineInv_generateTone layerId 220 ⟨h3.1, h3.2⟩

lemma EngineInv_setLayerVolume {s : EngineState} {layerId : String} {v : ℚ}
    (hv0 : 0 ≤ v) (hv1 : v ≤ 1) (hs : EngineInv s) :
    EngineInv (setLayerVolume s layerId v) := by
  unfold setLayerVolume
  cases hl : lookupLayer s layerId with
  | none => exact hs
  | some layer =>
      have h1 : EngineInv (updateLayer s layerId (fun l => { l with volume := v })) :=
        EngineInv_updateLayer hs (fun q _ hOK => ⟨hv0, hv1, hOK.2.2⟩)
      by_cases hp : layer.isPlaying = true
      · simp only [hp, if_true]
        refine EngineInv_updateLayer h1 ?_
        intro q _ hOK
        refine ⟨hOK.1, hOK.2.1, ?_⟩
        have hcanc := paramOK_cancelScheduledValues hOK.2.2 s.now
        have hval := paramOK_valueAt hcanc s.now
        exact paramOK_linearRampToValueAtTime
          (paramOK_setValueAtTime hcanc _ hval.1 hval.2) _ hv0 hv1
      · simp only [Bool.not_eq_true] at hp
        simp only [hp, Bool.false_eq_true, if_false]
        refine EngineInv_updateLayer h1 ?_
        intro q _ hOK
        exact ⟨hOK.1, hOK.2.1, paramOK_setValueDirect hOK.2.2 hv0 hv1⟩

lemma EngineInv_setMasterVolume {s : EngineState} {v : ℚ}
    (hv0 : 0 ≤ v) (hv1 : v ≤ 1) (hs : EngineInv s) :
    EngineInv (setMasterVolume s v) := by
  unfold setMasterVolume
  cases hm : s.masterGain with
  | none => exact hs
  | some g =>
      have hg : paramOK g := by
        have := hs.1 g
        rw [hm] at this
        exact this (by simp)
      refine ⟨?_, hs.2⟩
      intro g' hg'
      simp only [Option.toList_some, List.mem_singleton] at hg'
      subst hg'
      have hcanc := paramOK_cancelScheduledValues hg s.now
      have hval := paramOK_valueAt hcanc s.now
      exact paramOK_linearRampToValueAtTime
        (paramOK_setValueAtTime hcanc _ hval.1 hval.2) _ hv0 hv1

lemma EngineInv_createLayer {s s' : EngineState} {layerId : String} {v : ℚ}
    (h : createLayer s layerId v = .ok s') (hv0 : 0 ≤ v) (hv1 : v ≤ 1)
    (hs : EngineInv s) : EngineInv s' := by
  unfold createLayer at h
  by_cases hinit : s.isInitialized = true
  · simp only [hinit] at h
    by_cases hex : (lookupLayer s layerId).isSome = true
    · simp only [hex, if_true] at h
      have hx := Except.ok.inj h
      subst hx
      exact ⟨hs.1, hs.2⟩
    · simp only [Bool.not_eq_true] at hex
      simp only [hex, Bool.false_eq_true, if_false] at h
      have hx := Except.ok.inj h
      subst hx
      refine ⟨hs.1, ?_⟩
      intro p hp
      rcases List.mem_append.1 hp with h' | h'
      · exact hs.2 p h'
      · rcases List.mem_singleton.1 h' with rfl
        exact ⟨hv0, hv1, hv0, hv1, by intro e he; cases he⟩
  · simp only [Bool.not_eq_true] at hinit
    simp only [hinit] at h
    cases h

lemma EngineInv_initEngine {s s' : EngineState} {hw : ℕ} {ok : Bool}
    (h : initEngine s hw ok = .ok s') (hs : EngineInv s) : EngineInv s' := by
  unfold initEngine at h
  by_cases hinit : s.isInitialized = true
  · simp only [hinit, if_true] at h
    have hx := Except.ok.inj h
    subst hx
    exact hs
  · simp only [Bool.not_eq_true] at hinit
    simp only [hinit, Bool.false_eq_true, if_false] at h
    by_cases hok : ok = true
    · simp only [hok, if_true] at h
      have hx := Except.ok.inj h
      subst hx
      refine ⟨?_, hs.2⟩
      intro g hg
      simp only [Option.toList_some, List.mem_singleton] at hg
      subst hg
      refine ⟨by norm_num, by norm_num, ?_⟩
      intro e he
      cases he
    · simp only [Bool.not_eq_true] at hok
      simp only [hok, Bool.false_eq_true, if_false] at h
      cases h

lemma EngineInv_updateConfig {s : EngineState} (c : ConfigUpdate) (hs : EngineInv s) :
    EngineInv (updateConfig s c) := by
  unfold updateConfig
  cases c.loopLayers with
  | none => exact ⟨hs.1, hs.2⟩
  | some loop =>
      refine ⟨hs.1, ?_⟩
      intro p hp
      simp only at hp
      rcases List.mem_map.1 hp with ⟨q, hq, rfl⟩
      have hOK := hs.2 q hq
      exact ⟨hOK.1, hOK.2.1, hOK.2.2⟩

lemma EngineInv_fireDueTimer {s : EngineState} (hs : EngineInv s) :
    EngineInv (fireDueTimer s) := by
  unfold fireDueTimer
  cases (s.pendingTimers.filter (fun tm => decide (tm.fireAt ≤ s.now))).foldl
      (fun (best : Option Timer) tm =>
        match best with
        | none => some tm
        | some b => if tm.fireAt < b.fireAt then some tm else best) none with
  | none => exact hs
  | some tm =>
      exact EngineInv__stopLayerImmediately tm.layerId ⟨hs.1, hs.2⟩

lemma EngineInv_stopAll {s : EngineState} (hs : EngineInv s) : EngineInv (stopAll s) := by
  unfold stopAll
  have key : ∀ (ids : List String) (s0 : EngineState), EngineInv s0 →
      EngineInv (ids.foldl (fun acc layerId =>
        match lookupLayer acc layerId with
        | none => acc
        | some layer => if layer.isPlaying then stopLayer acc layerId else acc) s0) := by
    intro ids
    induction ids with
    | nil => intro s0 h0; exact h0
    | cons i ids ih =>
        intro s0 h0
        simp only [List.foldl_cons]
        apply ih
        cases hl : lookupLayer s0 i with
        | none => exact h0
        | some layer =>
            by_cases hp : layer.isPlaying = true
            · simp only [hp, if_true]
              exact EngineInv_stopLayer i h0
            · simp only [Bool.not_eq_true] at hp
              simp only [hp, Bool.false_eq_true, if_false]
              exact h0
  exact key _ s hs

lemma EngineInv_playAll {s : EngineState} (rand : ℕ → ℚ) (decodeOk : Bool)
    (hs : EngineInv s) : EngineInv (playAll s rand decodeOk) := by
  unfold playAll
  have key : ∀ (ids : List String) (s0 : EngineState), EngineInv s0 →
      EngineInv (ids.foldl (fun acc layerId =>
        match lookupLayer acc layerId with
        | none => acc
        | some layer =>
          match layer.currentSound with
          | none => acc
          | some cs =>
            if layer.isPlaying then acc
            else
              let parts := cs.splitOn "/"
              match loadAndPlayAudio acc layerId (parts.getD 0 "") (parts.getD 1 "") rand decodeOk with
              | .ok s' => s'
              | .error _ => acc) s0) := by
    intro ids
    induction ids with
    | nil => intro s0 h0; exact h0
    | cons i ids ih =>
        intro s0 h0
        simp only [List.foldl_cons]
        apply ih
        cases hl : lookupLayer s0 i with
        | none => exact h0
        | some layer =>
            show EngineInv (match layer.currentSound with
              | none => s0
              | some cs =>
                if layer.isPlaying then s0
                else
                  match loadAndPlayAudio s0 i ((cs.splitOn "/").getD 0 "")
                      ((cs.splitOn "/").getD 1 "") rand decodeOk with
                  | .ok s' => s'
                  | .error _ => s0)
            cases hcs : layer.currentSound with
            | none => exact h0
            | some cs =>
                by_cases hp : layer.isPlaying = true
                · simp only [hp, if_true]
                  exact h0
                · simp only [Bool.not_eq_true] at hp
                  simp only [hp, Bool.false_eq_true, if_false]
                  cases hload : loadAndPlayAudio s0 i ((cs.splitOn "/").getD 0 "")
                      ((cs.splitOn "/").getD 1 "") rand decodeOk with
                  | ok s1 => exact EngineInv_loadAndPlayAudio hload h0
                  | error e => exact h0
  exact key _ s hs

lemma EngineInv_step {s : EngineState} {c : Cmd} (rand : ℕ → ℚ)
    (hc : goodCmd c) (hs : EngineInv s) : EngineInv (step rand c s) := by
  cases c with
  | initCtx hw ok =>
      show EngineInv (match initEngine s hw ok with | .ok s' => s' | .error _ => s)
      cases h : initEngine s hw ok with
      | ok s' => exact EngineInv_initEngine h hs
      | error e => exact hs
  | createLayer layerId v =>
      show EngineInv (match createLayer s layerId v with | .ok s' => s' | .error _ => s)
      cases h : createLayer s layerId v with
      | ok s' => exact EngineInv_createLayer h hc.1 hc.2 hs
      | error e => exact hs
  | play layerId ty nm ok =>
      show EngineInv (match loadAndPlayAudio s layerId ty nm rand ok with | .ok s' => s' | .error _ => s)
      cases h : loadAndPlayAudio s layerId ty nm rand ok with
      | ok s' => exact EngineInv_loadAndPlayAudio h hs
      | error e => exact hs
  | stop layerId => exact EngineInv_stopLayer layerId hs
  | stopAll => exact EngineInv_stopAll hs
  | playAll ok => exact EngineInv_playAll rand ok hs
  | setLayerVolume layerId v => exact EngineInv_setLayerVolume hc.1 hc.2 hs
  | setMasterVolume v => exact EngineInv_setMasterVolume hc.1 hc.2 hs
  | setConfig c => exact EngineInv_updateConfig c hs
  | advance δ => exact ⟨hs.1, hs.2⟩
  | fireTimer => exact EngineInv_fireDueTimer hs

lemma EngineInv_run (rand : ℕ → ℚ) (cmds : List Cmd) :
    ∀ s : EngineState, EngineInv s → (∀ c ∈ cmds, goodCmd c) →
      EngineInv (run rand cmds s) := by
  induction cmds with
  | nil => intro s hs _; exact hs
  | cons c cmds ih =>
      intro s hs hg
      simp only [run, List.foldl_cons]
      exact ih (step rand c s)
        (EngineInv_step rand (hg c (List.mem_cons_self c cmds)) hs)
        (fun c' hc' => hg c' (List.mem_cons_of_mem c hc'))

lemma fadeIn_pendingTimers (s : EngineState) (layerId : String) :
    (fadeIn s layerId).pendingTimers = s.pendingTimers := by
  unfold fadeIn
  cases lookupLayer s layerId with
  | none => rfl
  | some layer => rfl

lemma fadeOut_pendingTimers_ext (s : EngineState) (layerId : String) (cb : Bool) :
    ∃ ts, (fadeOut s layerId cb).pendingTimers = s.pendingTimers ++ ts := by
  unfold fadeOut
  cases lookupLayer s layerId with
  | none => exact ⟨[], (List.append_nil _).symm⟩
  | some layer =>
      by_cases hcb : cb = true
      · simp only [hcb, if_true]
        exact ⟨[{ fireAt := s.now + s.config.fadeDuration, layerId := layerId }], rfl⟩
      · simp only [Bool.not_eq_true] at hcb
        simp only [hcb, Bool.false_eq_true, if_false]
        exact ⟨[], (List.append_nil _).symm⟩

lemma _stopLayerImmediately_pendingTimers (s : EngineState) (layerId : String) :
    (_stopLayerImmediately s layerId).pendingTimers = s.pendingTimers := by
  unfold _stopLayerImmediately
  cases lookupLayer s layerId with
  | none => rfl
  | some _ => rfl

lemma stopLayer_pendingTimers_ext (s : EngineState) (layerId : String) :
    ∃ ts, (stopLayer s layerId).pendingTimers = s.pendingTimers ++ ts := by
  unfold stopLayer
  cases lookupLayer s layerId with
  | none => exact ⟨[], (List.append_nil _).symm⟩
  | some layer =>
      by_cases h : (s.config.enableCrossfade && layer.isPlaying) = true
      · simp only [h, if_true]
        exact fadeOut_pendingTimers_ext s layerId true
      · simp only [Bool.not_eq_true] at h
        simp only [h, Bool.false_eq_true, if_false]
        exact ⟨[], by rw [_stopLayerImmediately_pendingTimers, List.append_nil]⟩

lemma generateTone_pendingTimers (s : EngineState) (layerId : String) (freq : ℚ) :
    (generateTone s layerId freq).pendingTimers = s.pendingTimers := by
  unfold generateTone
  cases lookupLayer s layerId with
  | none => rfl
  | some _ => rfl

lemma generateAndPlayNoise_pendingTimers (s : EngineState) (layerId noiseType : String)
    (rand : ℕ → ℚ) :
    (generateAndPlayNoise s layerId noiseType rand).pendingTimers = s.pendingTimers := by
  unfold generateAndPlayNoise
  cases lookupLayer s layerId with
  | none => rfl
  | some _ =>
      have key : ∀ s1 : EngineState, s1.pendingTimers = s.pendingTimers →
          ((match s1.noiseGenerators.find? (fun p => p.1 == noiseType) with
            | none => s1
            | some pr =>
              let source := SourceNode.bufferSource pr.2
              let s2 := updateLayer s1 layerId (fun l =>
                { l with noiseSource := some source, sourceNode := some source,
                         currentSound := some ("noise/" ++ noiseType), isPlaying := true })
              let s3 := if s2.config.enableCrossfade then fadeIn s2 layerId else s2
              { s3 with log := ("Playing " ++ noiseType ++ " noise on layer " ++ layerId)
                  :: s3.log } : EngineState)).pendingTimers = s.pendingTimers := by
        intro s1 h1
        cases s1.noiseGenerators.find? (fun p => p.1 == noiseType) with
        | none => exact h1
        | some pr =>
            by_cases hcf : (updateLayer s1 layerId (fun l =>
                { l with noiseSource := some (SourceNode.bufferSource pr.2),
                         sourceNode := some (SourceNode.bufferSource pr.2),
                         currentSound := some ("noise/" ++ noiseType),
                         isPlaying := true })).config.enableCrossfade = true
            · simp only [hcf, if_true]
              show (fadeIn (updateLayer s1 layerId (fun l =>
                  { l with noiseSource := some (SourceNode.bufferSource pr.2),
                           sourceNode := some (SourceNode.bufferSource pr.2),
                           currentSound := some ("noise/" ++ noiseType),
                           isPlaying := true })) layerId).pendingTimers = s.pendingTimers
              rw [fadeIn_pendingTimers]
              exact h1
            · simp only [Bool.not_eq_true] at hcf
              simp only [hcf, Bool.false_eq_true, if_false]
              exact h1
      by_cases hc : (s.noiseGenerators.find? (fun p => p.1 == noiseType)).isSome = true
      · simp only [hc, if_true]
        exact key s rfl
      · simp only [Bool.not_eq_true] at hc
        simp only [hc, Bool.false_eq_true, if_false]
        exact key { s with noiseGenerators :=
          s.noiseGenerators ++ [(noiseType, createNoiseBuffer s noiseType rand)] } rfl

lemma timers_ext_trans {s1 s2 s3 : EngineState}
    (h12 : ∃ ts, s2.pendingTimers = s1.pendingTimers ++ ts)
    (h23 : ∃ ts, s3.pendingTimers = s2.pendingTimers ++ ts) :
    ∃ ts, s3.pendingTimers = s1.pendingTimers ++ ts := by
  obtain ⟨a, ha⟩ := h12
  obtain ⟨b, hb⟩ := h23
  exact ⟨a ++ b, by rw [hb, ha, List.append_assoc]⟩

lemma loadAndPlayAudio_pendingTimers_ext {s s' : EngineState}
    {layerId soundType soundName : String} {rand : ℕ → ℚ} {decodeOk : Bool}
    (h : loadAndPlayAudio s layerId soundType soundName rand decodeOk = .ok s') :
    ∃ ts, s'.pendingTimers = s.pendingTimers ++ ts := by
  unfold loadAndPlayAudio at h
  cases hl : lookupLayer s layerId with
  | none => rw [hl] at h; cases h
  | some layer =>
      rw [hl] at h
      simp only at h
      have hstop := stopLayer_pendingTimers_ext s layerId
      by_cases hn : soundType = "noise" ∧ (soundName = "white" ∨ soundName = "pink" ∨ soundName = "brown")
      · rw [if_pos hn] at h
        have hx := Except.ok.inj h
        subst hx
        refine timers_ext_trans hstop ?_
        exact ⟨[], by rw [generateAndPlayNoise_pendingTimers, List.append_nil]⟩
      · rw [if_neg hn] at h
        cases hlib : audioLibrary soundType soundName with
        | none =>
            rw [hlib] at h
            have hx := Except.ok.inj h
            subst hx
            refine timers_ext_trans hstop ?_
            exact ⟨[], by rw [generateTone_pendingTimers, List.append_nil]⟩
        | some opt =>
            cases opt with
            | none =>
                rw [hlib] at h
                have hx := Except.ok.inj h
                subst hx
                refine timers_ext_trans hstop ?_
                exact ⟨[], by rw [generateTone_pendingTimers, List.append_nil]⟩
            | some audioPath =>
                rw [hlib] at h
                simp only at h
                set s2 := updateLayer (stopLayer s layerId) layerId (fun l =>
                    { l with audioElement := some (AudioElem.mk audioPath (stopLayer s layerId).config.loopLayers),
                             sourceNode := some (SourceNode.mediaElement audioPath),
                             currentSound := some (soundType ++ "/" ++ soundName) }) with hs2
                have h2ext : ∃ ts, s2.pendingTimers = s.pendingTimers ++ ts := by
                  refine timers_ext_trans hstop ⟨[], ?_⟩
                  rw [List.append_nil, hs2]
                  rfl
                set s3 := if s2.config.enableCrossfade then fadeIn s2 layerId else s2 with hs3
                have h3ext : ∃ ts, s3.pendingTimers = s.pendingTimers ++ ts := by
                  refine timers_ext_trans h2ext ⟨[], ?_⟩
                  rw [List.append_nil, hs3]
                  by_cases hcf : s2.config.enableCrossfade = true
                  · simp only [hcf, if_true]
                    rw [fadeIn_pendingTimers]
                  · simp only [Bool.not_eq_true] at hcf
                    simp only [hcf, Bool.false_eq_true, if_false]
                by_cases hok : decodeOk = true
                · rw [if_pos hok] at h
                  have hx := Except.ok.inj h
                  subst hx
                  exact timers_ext_trans h3ext ⟨[], by rw [List.append_nil]; rfl⟩
                · simp only [Bool.not_eq_true] at hok
                  rw [hok] at h
                  simp only [Bool.false_eq_true, if_false] at h
                  have hx := Except.ok.inj h
                  subst hx
                  refine timers_ext_trans h3ext ⟨[], ?_⟩
                  rw [List.append_nil]
                  show (generateTone { s3 with
                      log := ("Error loading audio for " ++ layerId) :: s3.log } layerId 220).pendingTimers
                    = s3.pendingTimers
                  rw [generateTone_pendingTimers]

lemma setLayerVolume_pendingTimers (s : EngineState) (layerId : String) (v : ℚ) :
    (setLayerVolume s layerId v).pendingTimers = s.pendingTimers := by
  unfold setLayerVolume
  cases lookupLayer s layerId with
  | none => rfl
  | some layer =>
      by_cases hp : layer.isPlaying = true
      · simp only [hp, if_true]
        rfl
      · simp only [Bool.not_eq_true] at hp
        simp only [hp, Bool.false_eq_true, if_false]
        rfl

lemma setMasterVolume_pendingTimers (s : EngineState) (v : ℚ) :
    (setMasterVolume s v).pendingTimers = s.pendingTimers := by
  unfold setMasterVolume
  cases s.masterGain with
  | none => rfl
  | some g => rfl

lemma createLayer_pendingTimers {s s' : EngineState} {layerId : String} {v : ℚ}
    (h : createLayer s layerId v = .ok s') : s'.pendingTimers = s.pendingTimers := by
  unfold createLayer at h
  by_cases hinit : s.isInitialized = true
  · simp only [hinit] at h
    by_cases hex : (lookupLayer s layerId).isSome = true
    · simp only [hex, if_true] at h
      have hx := Except.ok.inj h
      subst hx
      rfl
    · simp only [Bool.not_eq_true] at hex
      simp only [hex, Bool.false_eq_true, if_false] at h
      have hx := Except.ok.inj h
      subst hx
      rfl
  · simp only [Bool.not_eq_true] at hinit
    simp only [hinit] at h
    cases h

lemma initEngine_pendingTimers {s s' : EngineState} {hw : ℕ} {ok : Bool}
    (h : initEngine s hw ok = .ok s') : s'.pendingTimers = s.pendingTimers := by
  unfold initEngine at h
  by_cases hinit : s.isInitialized = true
  · simp only [hinit, if_true] at h
    have hx := Except.ok.inj h
    subst hx
    rfl
  · simp only [Bool.not_eq_true] at hinit
    simp only [hinit, Bool.false_eq_true, if_false] at h
    by_cases hok : ok = true
    · simp only [hok, if_true] at h
      have hx := Except.ok.inj h
      subst hx
      rfl
    · simp only [Bool.not_eq_true] at hok
      simp only [hok, Bool.false_eq_true, if_false] at h
      cases h

lemma updateConfig_pendingTimers (s : EngineState) (c : ConfigUpdate) :
    (updateConfig s c).pendingTimers = s.pendingTimers := by
  unfold updateConfig
  cases c.loopLayers with
  | none => rfl
  | some loop => rfl

lemma stopAll_pendingTimers_ext (s : EngineState) :
    ∃ ts, (stopAll s).pendingTimers = s.pendingTimers ++ ts := by
  unfold stopAll
  have key : ∀ (ids : List String) (s0 : EngineState),
      ∃ ts, (ids.foldl (fun acc layerId =>
        match lookupLayer acc layerId with
        | none => acc
        | some layer => if layer.isPlaying then stopLayer acc layerId else acc) s0).pendingTimers
        = s0.pendingTimers ++ ts := by
    intro ids
    induction ids with
    | nil => intro s0; exact ⟨[], (List.append_nil _).symm⟩
    | cons i ids ih =>
        intro s0
        simp only [List.foldl_cons]
        refine @timers_ext_trans _ (match lookupLayer s0 i with
          | none => s0
          | some layer => if layer.isPlaying then stopLayer s0 i else s0) _ ?_ (ih _)
        cases hl : lookupLayer s0 i with
        | none => exact ⟨[], (List.append_nil _).symm⟩
        | some layer =>
            by_cases hp : layer.isPlaying = true
            · simp only [hp, if_true]
              exact stopLayer_pendingTimers_ext s0 i
            · simp only [Bool.not_eq_true] at hp
              simp only [hp, Bool.false_eq_true, if_false]
              exact ⟨[], (List.append_nil _).symm⟩
  exact key _ s

lemma playAll_pendingTimers_ext (s : EngineState) (rand : ℕ → ℚ) (decodeOk : Bool) :
    ∃ ts, (playAll s rand decodeOk).pendingTimers = s.pendingTimers ++ ts := by
  unfold playAll
  have key : ∀ (ids : List String) (s0 : EngineState),
      ∃ ts, (ids.foldl (fun acc layerId =>
        match lookupLayer acc layerId with
        | none => acc
        | some layer =>
          match layer.currentSound with
          | none => acc
          | some cs =>
            if layer.isPlaying then acc
            else
              let parts := cs.splitOn "/"
              match loadAndPlayAudio acc layerId (parts.getD 0 "") (parts.getD 1 "") rand decodeOk with
              | .ok s' => s'
              | .error _ => acc) s0).pendingTimers = s0.pendingTimers ++ ts := by
    intro ids
    induction ids with
    | nil => intro s0; exact ⟨[], (List.append_nil _).symm⟩
    | cons i ids ih =>
        intro s0
        simp only [List.foldl_cons]
        refine @timers_ext_trans _ (match lookupLayer s0 i with
          | none => s0
          | some layer =>
            match layer.currentSound with
            | none => s0
            | some cs =>
              if layer.isPlaying then s0
              else
                let parts := cs.splitOn "/"
                match loadAndPlayAudio s0 i (parts.getD 0 "") (parts.getD 1 "") rand decodeOk with
                | .ok s' => s'
                | .error _ => s0) _ ?_ (ih _)
        cases hl : lookupLayer s0 i with
        | none => exact ⟨[], (List.append_nil _).symm⟩
        | some layer =>
            show ∃ ts, (match layer.currentSound with
              | none => s0
              | some cs =>
                if layer.isPlaying then s0
                else
                  match loadAndPlayAudio s0 i ((cs.splitOn "/").getD 0 "")
                      ((cs.splitOn "/").getD 1 "") rand decodeOk with
                  | .ok s' => s'
                  | .error _ => s0).pendingTimers = s0.pendingTimers ++ ts
            cases hcs : layer.currentSound with
            | none => exact ⟨[], (List.append_nil _).symm⟩
            | some cs =>
                by_cases hp : layer.isPlaying = true
                · simp only [hp, if_true]
                  exact ⟨[], (List.append_nil _).symm⟩
                · simp only [Bool.not_eq_true] at hp
                  simp only [hp, Bool.false_eq_true, if_false]
                  cases hload : loadAndPlayAudio s0 i ((cs.splitOn "/").getD 0 "")
                      ((cs.splitOn "/").getD 1 "") rand decodeOk with
                  | ok s1 => exact loadAndPlayAudio_pendingTimers_ext hload
                  | error e => exact ⟨[], (List.append_nil _).symm⟩
  exact key _ s

/-- No command ever cancels a pending teardown timer: every command
other than the event loop firing a timer leaves all previously pending
timers pending (possibly appending new ones). -/
lemma step_pendingTimers_ext (rand : ℕ → ℚ) (c : Cmd) (s : EngineState)
    (hc : c ≠ Cmd.fireTimer) :
    ∃ ts, (step rand c s).pendingTimers = s.pendingTimers ++ ts := by
  cases c with
  | initCtx hw ok =>
      show ∃ ts, (match initEngine s hw ok with
        | .ok s' => s' | .error _ => s).pendingTimers = s.pendingTimers ++ ts
      cases h : initEngine s hw ok with
      | ok s' => exact ⟨[], by rw [initEngine_pendingTimers h, List.append_nil]⟩
      | error e => exact ⟨[], (List.append_nil _).symm⟩
  | createLayer layerId v =>
      show ∃ ts, (match createLayer s layerId v with
        | .ok s' => s' | .error _ => s).pendingTimers = s.pendingTimers ++ ts
      cases h : createLayer s layerId v with
      | ok s' => exact ⟨[], by rw [createLayer_pendingTimers h, List.append_nil]⟩
      | error e => exact ⟨[], (List.append_nil _).symm⟩
  | play layerId ty nm ok =>
      show ∃ ts, (match loadAndPlayAudio s layerId ty nm rand ok with
        | .ok s' => s' | .error _ => s).pendingTimers = s.pendingTimers ++ ts
      cases h : loadAndPlayAudio s layerId ty nm rand ok with
      | ok s' => exact loadAndPlayAudio_pendingTimers_ext h
      | error e => exact ⟨[], (List.append_nil _).symm⟩
  | stop layerId => exact stopLayer_pendingTimers_ext s layerId
  | stopAll => exact stopAll_pendingTimers_ext s
  | playAll ok => exact playAll_pendingTimers_ext s rand ok
  | setLayerVolume layerId v =>
      exact ⟨[], by rw [show (step rand (Cmd.setLayerVolume layerId v) s) = setLayerVolume s layerId v from rfl,
        setLayerVolume_pendingTimers, List.append_nil]⟩
  | setMasterVolume v =>
      exact ⟨[], by rw [show (step rand (Cmd.setMasterVolume v) s) = setMasterVolume s v from rfl,
        setMasterVolume_pendingTimers, List.append_nil]⟩
  | setConfig c =>
      exact ⟨[], by rw [show (step rand (Cmd.setConfig c) s) = updateConfig s c from rfl,
        updateConfig_pendingTimers, List.append_nil]⟩
  | advance δ => exact ⟨[], (List.append_nil _).symm⟩
  | fireTimer => exact absurd rfl hc

lemma filter_time_lt_idem (now : ℚ) (evs : List AutomEvent) :
    (evs.filter (fun e => decide (e.time < now))).filter (fun e => decide (e.time < now))
      = evs.filter (fun e => decide (e.time < now)) := by
  induction evs with
  | nil => rfl
  | cons e es ih =>
      by_cases h : e.time < now
      · simp [h, ih]
      · simp [h, ih]

lemma filter_fresh_events (now fd a : ℚ) (hfd : 0 ≤ fd) (evs : List AutomEvent) :
    ((evs.filter (fun e => decide (e.time < now))) ++
        [AutomEvent.setValue a now, AutomEvent.linearRamp 0 (now + fd)]).filter
      (fun e => decide (e.time < now))
    = evs.filter (fun e => decide (e.time < now)) := by
  rw [List.filter_append, filter_time_lt_idem]
  have h2 : ([AutomEvent.setValue a now, AutomEvent.linearRamp 0 (now + fd)].filter
      (fun e => decide (e.time < now))) = [] := by
    simp only [List.filter_cons, List.filter_nil, AutomEvent.time, decide_eq_true_eq]
    rw [if_neg (lt_irrefl now), if_neg (by linarith : ¬ now + fd < now)]
  rw [h2, List.append_nil]

lemma stopLayer_eq_fadeOut {s : EngineState} {layerId : String} {layer : Layer}
    (hl : lookupLayer s layerId = some layer)
    (hcf : s.config.enableCrossfade = true) (hp : layer.isPlaying = true) :
    stopLayer s layerId = fadeOut s layerId true := by
  unfold stopLayer
  rw [hl]
  simp only [hcf, hp, Bool.and_self, if_true]

lemma fadeOut_apply {s : EngineState} {layerId : String} {layer : Layer}
    (hl : lookupLayer s layerId = some layer) :
    fadeOut s layerId true =
      { updateLayer s layerId (fun l =>
          let canceled := l.gainNode.cancelScheduledValues s.now
          let anchored := canceled.setValueAtTime (canceled.valueAt s.now) s.now
          { l with gainNode :=
              anchored.linearRampToValueAtTime 0 (s.now + s.config.fadeDuration) }) with
        pendingTimers := s.pendingTimers ++
          [{ fireAt := s.now + s.config.fadeDuration, layerId := layerId }] } := by
  unfold fadeOut
  rw [hl]
  rfl

lemma fadeIn_events {s : EngineState} {layerId : String} {l0 : Layer}
    (hl : lookupLayer s layerId = some l0) :
    (lookupLayer (fadeIn s layerId) layerId).map (fun l => l.gainNode.events)
      = some ((l0.gainNode.events.filter (fun e => decide (e.time < s.now)))
          ++ [AutomEvent.setValue 0 s.now,
              AutomEvent.linearRamp l0.volume (s.now + s.config.fadeDuration)]) := by
  unfold fadeIn
  rw [hl]
  show (lookupLayer (updateLayer s layerId (fun l =>
      let pinned := (l.gainNode.cancelScheduledValues s.now).setValueAtTime 0 s.now
      { l with gainNode :=
          pinned.linearRampToValueAtTime l0.volume (s.now + s.config.fadeDuration) })) layerId).map
        (fun l => l.gainNode.events) = _
  rw [lookupLayer_updateLayer_self, hl]
  simp only [Option.map_some]
  unfold GainParam.cancelScheduledValues GainParam.setValueAtTime GainParam.linearRampToValueAtTime
  simp [List.append_assoc]

lemma updateLayer_config (s : EngineState) (i : String) (f : Layer → Layer) :
    (updateLayer s i f).config = s.config := rfl

lemma updateLayer_now (s : EngineState) (i : String) (f : Layer → Layer) :
    (updateLayer s i f).now = s.now := rfl

lemma updateLayer_enableCrossfade (s : EngineState) (i : String) (f : Layer → Layer) :
    (updateLayer s i f).config.enableCrossfade = s.config.enableCrossfade := rfl

lemma lookupLayer_set_log (s : EngineState) (m : List String) (i : String) :
    lookupLayer { s with log := m } i = lookupLayer s i := rfl

lemma lookupLayer_set_noiseGenerators (s : EngineState) (x : List (String × List ℚ))
    (i : String) : lookupLayer { s with noiseGenerators := x } i = lookupLayer s i := rfl

lemma find?_append_none {α : Type} (p : α → Bool) {l₁ : List α} (l₂ : List α)
    (h : l₁.find? p = none) : (l₁ ++ l₂).find? p = l₂.find? p := by
  induction l₁ with
  | nil => rfl
  | cons a l₁ ih =>
      rw [List.find?_cons] at h
      cases hpa : p a with
      | true => rw [hpa] at h; cases h
      | false =>
          rw [hpa] at h
          rw [List.cons_append, List.find?_cons, hpa]
          exact ih h

lemma generateAndPlayNoise_events {s : EngineState} {layerId noiseType : String} {l0 : Layer}
    (rand : ℕ → ℚ) (hl : lookupLayer s layerId = some l0)
    (hcf : s.config.enableCrossfade = true) :
    (lookupLayer (generateAndPlayNoise s layerId noiseType rand) layerId).map
        (fun l => l.gainNode.events)
      = some ((l0.gainNode.events.filter (fun e => decide (e.time < s.now)))
          ++ [AutomEvent.setValue 0 s.now,
              AutomEvent.linearRamp l0.volume (s.now + s.config.fadeDuration)]) := by
  unfold generateAndPlayNoise
  rw [hl]
  by_cases hc : (s.noiseGenerators.find? (fun p => p.1 == noiseType)).isSome = true
  · obtain ⟨pr, hpr⟩ := Option.isSome_iff_exists.mp hc
    simp only [hpr, Option.isSome_some, eq_self_iff_true, if_true, lookupLayer_set_log,
      updateLayer_config, hcf]
    rw [fadeIn_events (show lookupLayer (updateLayer s layerId (fun l =>
        { l with noiseSource := some (SourceNode.bufferSource pr.2),
                 sourceNode := some (SourceNode.bufferSource pr.2),
                 currentSound := some ("noise/" ++ noiseType),
                 isPlaying := true })) layerId = some ({ l0 with
                   noiseSource := some (SourceNode.bufferSource pr.2),
                   sourceNode := some (SourceNode.bufferSource pr.2),
                   currentSound := some ("noise/" ++ noiseType),
                   isPlaying := true }) by rw [lookupLayer_updateLayer_self, hl]; rfl)]
    rfl
  · simp only [Bool.not_eq_true] at hc
    have hnone : s.noiseGenerators.find? (fun p => p.1 == noiseType) = none := by
      cases hfind : s.noiseGenerators.find? (fun p => p.1 == noiseType) with
      | none => rfl
      | some pr => rw [hfind] at hc; cases hc
    have hfind2 : (s.noiseGenerators ++ [(noiseType, createNoiseBuffer s noiseType rand)]).find?
        (fun p => p.1 == noiseType) = some (noiseType, createNoiseBuffer s noiseType rand) := by
      rw [find?_append_none _ _ hnone]
      simp
    simp only [hc, Bool.false_eq_true, if_false, hfind2, lookupLayer_set_log,
      updateLayer_config, hcf, eq_self_iff_true, if_true]
    rw [fadeIn_events (show lookupLayer (updateLayer { s with noiseGenerators :=
        s.noiseGenerators ++ [(noiseType, createNoiseBuffer s noiseType rand)] } layerId (fun l =>
        { l with noiseSource := some (SourceNode.bufferSource (createNoiseBuffer s noiseType rand)),
                 sourceNode := some (SourceNode.bufferSource (createNoiseBuffer s noiseType rand)),
                 currentSound := some ("noise/" ++ noiseType),
                 isPlaying := true })) layerId = some ({ l0 with
                   noiseSource := some (SourceNode.bufferSource (createNoiseBuffer s noiseType rand)),
                   sourceNode := some (SourceNode.bufferSource (createNoiseBuffer s noiseType rand)),
                   currentSound := some ("noise/" ++ noiseType),
                   isPlaying := true }) by
        rw [lookupLayer_updateLayer_self]
        show (lookupLayer s layerId).map _ = _
        rw [hl]
        rfl)]
    rfl

lemma lookupLayer_set_timers (s : EngineState) (ts : List Timer) (i : String) :
    lookupLayer { s with pendingTimers := ts } i = lookupLayer s i := rfl

lemma fadeOut_config (s : EngineState) (layerId : String) (cb : Bool) :
    (fadeOut s layerId cb).config = s.config := by
  unfold fadeOut
  cases lookupLayer s layerId with
  | none => rfl
  | some layer =>
      by_cases hcb : cb = true
      · simp only [hcb, if_true]
        rfl
      · simp only [Bool.not_eq_true] at hcb
        simp only [hcb, Bool.false_eq_true, if_false]
        rfl

lemma fadeOut_now (s : EngineState) (layerId : String) (cb : Bool) :
    (fadeOut s layerId cb).now = s.now := by
  unfold fadeOut
  cases lookupLayer s layerId with
  | none => rfl
  | some layer =>
      by_cases hcb : cb = true
      · simp only [hcb, if_true]
        rfl
      · simp only [Bool.not_eq_true] at hcb
        simp only [hcb, Bool.false_eq_true, if_false]
        rfl

lemma stopLayer_cancels {s : EngineState} {layerId : String} {layer : Layer}
    (hl : lookupLayer s layerId = some layer)
    (hcf : s.config.enableCrossfade = true) (hp : layer.isPlaying = true) :
    (stopLayer s layerId).pendingTimers
      = s.pendingTimers ++ [{ fireAt := s.now + s.config.fadeDuration, layerId := layerId }]
    ∧ (lookupLayer (stopLayer s layerId) layerId).map (fun l => l.gainNode.events)
      = some ((layer.gainNode.events.filter (fun e => decide (e.time < s.now)))
          ++ [AutomEvent.setValue
                ((layer.gainNode.cancelScheduledValues s.now).valueAt s.now) s.now,
              AutomEvent.linearRamp 0 (s.now + s.config.fadeDuration)]) := by
  rw [stopLayer_eq_fadeOut hl hcf hp, fadeOut_apply hl]
  constructor
  · rfl
  · rw [lookupLayer_set_timers, lookupLayer_updateLayer_self, hl]
    simp only [Option.map_some]
    unfold GainParam.cancelScheduledValues GainParam.setValueAtTime GainParam.linearRampToValueAtTime
    simp [List.append_assoc]

lemma fadeOut_lookup {s : EngineState} {layerId : String} {layer : Layer}
    (hl : lookupLayer s layerId = some layer) :
    lookupLayer (fadeOut s layerId true) layerId = some
      { layer with gainNode := ((layer.gainNode.cancelScheduledValues s.now).setValueAtTime ((layer.gainNode.cancelScheduledValues s.now).valueAt s.now) s.now).linearRampToValueAtTime 0 (s.now + s.config.fadeDuration) } := by
  rw [fadeOut_apply hl, lookupLayer_set_timers, lookupLayer_updateLayer_self, hl]
  rfl

lemma loadAndPlayAudio_noise_cancels {s : EngineState} {layerId nm : String} {layer : Layer}
    (rand : ℕ → ℚ) (ok : Bool) (hl : lookupLayer s layerId = some layer)
    (hcf : s.config.enableCrossfade = true) (hp : layer.isPlaying = true)
    (hfd : 0 ≤ s.config.fadeDuration)
    (hnm : nm = "white" ∨ nm = "pink" ∨ nm = "brown") :
    ∃ s', loadAndPlayAudio s layerId "noise" nm rand ok = .ok s'
      ∧ s'.pendingTimers
          = s.pendingTimers ++ [{ fireAt := s.now + s.config.fadeDuration, layerId := layerId }]
      ∧ (lookupLayer s' layerId).map (fun l => l.gainNode.events)
          = some ((layer.gainNode.events.filter (fun e => decide (e.time < s.now)))
              ++ [AutomEvent.setValue 0 s.now,
                  AutomEvent.linearRamp layer.volume (s.now + s.config.fadeDuration)]) := by
  refine ⟨generateAndPlayNoise (stopLayer s layerId) layerId nm rand, ?_, ?_, ?_⟩
  · unfold loadAndPlayAudio
    rw [hl, if_pos ⟨rfl, hnm⟩]
  · rw [generateAndPlayNoise_pendingTimers, stopLayer_eq_fadeOut hl hcf hp, fadeOut_apply hl]
  · rw [stopLayer_eq_fadeOut hl hcf hp]
    rw [generateAndPlayNoise_events rand (fadeOut_lookup hl)
      (by rw [fadeOut_config]; exact hcf)]
    rw [fadeOut_now, fadeOut_config]
    have hassoc : ({ layer with gainNode := ((layer.gainNode.cancelScheduledValues s.now).setValueAtTime ((layer.gainNode.cancelScheduledValues s.now).valueAt s.now) s.now).linearRampToValueAtTime 0 (s.now + s.config.fadeDuration) } : Layer).gainNode.events
        = (layer.gainNode.events.filter (fun e => decide (e.time < s.now)))
          ++ [AutomEvent.setValue
                ((layer.gainNode.cancelScheduledValues s.now).valueAt s.now) s.now,
              AutomEvent.linearRamp 0 (s.now + s.config.fadeDuration)] := by
      show ((layer.gainNode.events.filter (fun e => decide (e.time < s.now)))
          ++ [AutomEvent.setValue
                ((layer.gainNode.cancelScheduledValues s.now).valueAt s.now) s.now])
          ++ [AutomEvent.linearRamp 0 (s.now + s.config.fadeDuration)] = _
      rw [List.append_assoc]
      rfl
    rw [hassoc, filter_fresh_events _ _ _ hfd]

lemma setLayerVolume_cancels {s : EngineState} {layerId : String} {layer : Layer} (v : ℚ)
    (hl : lookupLayer s layerId = some layer) (hp : layer.isPlaying = true) :
    (lookupLayer (setLayerVolume s layerId v) layerId).map (fun l => l.gainNode.events)
      = some ((layer.gainNode.events.filter (fun e => decide (e.time < s.now)))
          ++ [AutomEvent.setValue
                ((layer.gainNode.cancelScheduledValues s.now).valueAt s.now) s.now,
              AutomEvent.linearRamp v (s.now + 0.05)]) := by
  unfold setLayerVolume
  rw [hl]
  simp only [hp, if_true]
  rw [lookupLayer_updateLayer_self, lookupLayer_updateLayer_self, hl]
  simp [GainParam.cancelScheduledValues, GainParam.setValueAtTime,
    GainParam.linearRampToValueAtTime, List.append_assoc]

/-- The draw stream used by the concrete traces (every `Math.random()`
call returns 0, so every white draw is -1). -/
def rZero : ℕ → ℚ := fun _ => 0

/-- Trace for the stale-teardown scenario: initialize (context rate 1),
create a layer, play noise, stop it (scheduling a fade-out teardown
timer), then play again before the timer fires. -/
def c1Trace : List Cmd :=
  [Cmd.initCtx 1 true, Cmd.createLayer "a" (1/2),
   Cmd.play "a" "noise" "white" true, Cmd.stop "a",
   Cmd.play "a" "noise" "white" true]

/-- C1 counterexample: after `play, stop, play` on one layer, the
teardown timers scheduled by the stop's fade-out (and by the second
play's internal stop) are still pending — the later play cancelled
neither — and when the clock passes the fade duration, the stale
teardown fires and tears down the playback the later play started:
the earlier fade's effect is applied after the later command. -/
theorem stale_teardown_fires_after_later_play :
    (run rZero c1Trace initialState).pendingTimers
        = [{ fireAt := 1, layerId := "a" }, { fireAt := 1, layerId := "a" }]
    ∧ (lookupLayer (run rZero c1Trace initialState) "a").map Layer.isPlaying = some true
    ∧ (lookupLayer (run rZero (c1Trace ++ [Cmd.advance 1, Cmd.fireTimer]) initialState) "a").map
        Layer.isPlaying = some false
    ∧ (lookupLayer (run rZero (c1Trace ++ [Cmd.advance 1, Cmd.fireTimer]) initialState) "a").map
        Layer.currentSound = some none := by
  with_unfolding_all decide

/-- C1 (amended): a later `play`, `stop`, or `setVolume` on a layer
cancels the gain automation left pending by an earlier fade — each new
fade or ramp first clears every event scheduled at or after the current
time — but the fade-out's scheduled teardown task is NOT cancelled: no
command (other than the event loop firing it) ever removes a pending
timer, so the stale teardown still fires after the later command. -/
theorem later_command_cancels_ramps_but_not_timer
    (rand : ℕ → ℚ) (s : EngineState) (layerId nm : String) (layer : Layer)
    (c : Cmd) (v : ℚ) (ok : Bool)
    (hl : lookupLayer s layerId = some layer)
    (hcf : s.config.enableCrossfade = true)
    (hp : layer.isPlaying = true)
    (hfd : 0 ≤ s.config.fadeDuration)
    (hnm : nm = "white" ∨ nm = "pink" ∨ nm = "brown")
    (hc : c ≠ Cmd.fireTimer) :
    (∃ ts, (step rand c s).pendingTimers = s.pendingTimers ++ ts)
    ∧ ((stopLayer s layerId).pendingTimers
          = s.pendingTimers ++ [{ fireAt := s.now + s.config.fadeDuration, layerId := layerId }]
        ∧ (lookupLayer (stopLayer s layerId) layerId).map (fun l => l.gainNode.events)
          = some ((layer.gainNode.events.filter (fun e => decide (e.time < s.now)))
              ++ [AutomEvent.setValue
                    ((layer.gainNode.cancelScheduledValues s.now).valueAt s.now) s.now,
                  AutomEvent.linearRamp 0 (s.now + s.config.fadeDuration)]))
    ∧ (∃ s', loadAndPlayAudio s layerId "noise" nm rand ok = .ok s'
        ∧ s'.pendingTimers
            = s.pendingTimers ++ [{ fireAt := s.now + s.config.fadeDuration, layerId := layerId }]
        ∧ (lookupLayer s' layerId).map (fun l => l.gainNode.events)
            = some ((layer.gainNode.events.filter (fun e => decide (e.time < s.now)))
                ++ [AutomEvent.setValue 0 s.now,
                    AutomEvent.linearRamp layer.volume (s.now + s.config.fadeDuration)]))
    ∧ ((setLayerVolume s layerId v).pendingTimers = s.pendingTimers
        ∧ (lookupLayer (setLayerVolume s layerId v) layerId).map (fun l => l.gainNode.events)
          = some ((layer.gainNode.events.filter (fun e => decide (e.time < s.now)))
              ++ [AutomEvent.setValue
                    ((layer.gainNode.cancelScheduledValues s.now).valueAt s.now) s.now,
                  AutomEvent.linearRamp v (s.now + 0.05)])) :=
  ⟨step_pendingTimers_ext rand c s hc,
   stopLayer_cancels hl hcf hp,
   loadAndPlayAudio_noise_cancels rand ok hl hcf hp hfd hnm,
   setLayerVolume_pendingTimers s layerId v,
   setLayerVolume_cancels v hl hp⟩

/-- A concrete engine with layer "a" playing white noise, used to
instantiate theorems with hypotheses. -/
def sW : EngineState :=
  run rZero [Cmd.initCtx 1 true, Cmd.createLayer "a" (1/2),
    Cmd.play "a" "noise" "white" true] initialState

/-- The layer object stored under "a" in `sW`. -/
def layerW : Layer :=
  (lookupLayer sW "a").getD
    { id := "", audioElement := none, sourceNode := none,
      gainNode := { base := 0, events := [] }, analyserFftSize := 0,
      currentSound := none, isPlaying := false, volume := 0,
      noiseBuffer := none, noiseSource := none }

/-- Witness for the amended C1 theorem at the concrete state `sW`. -/
theorem later_command_cancels_ramps_but_not_timer_witness :
    (∃ ts, (step rZero (Cmd.stop "b") sW).pendingTimers = sW.pendingTimers ++ ts)
    ∧ ((stopLayer sW "a").pendingTimers
          = sW.pendingTimers ++ [{ fireAt := sW.now + sW.config.fadeDuration, layerId := "a" }]
        ∧ (lookupLayer (stopLayer sW "a") "a").map (fun l => l.gainNode.events)
          = some ((layerW.gainNode.events.filter (fun e => decide (e.time < sW.now)))
              ++ [AutomEvent.setValue
                    ((layerW.gainNode.cancelScheduledValues sW.now).valueAt sW.now) sW.now,
                  AutomEvent.linearRamp 0 (sW.now + sW.config.fadeDuration)]))
    ∧ (∃ s', loadAndPlayAudio sW "a" "noise" "white" rZero true = .ok s'
        ∧ s'.pendingTimers
            = sW.pendingTimers ++ [{ fireAt := sW.now + sW.config.fadeDuration, layerId := "a" }]
        ∧ (lookupLayer s' "a").map (fun l => l.gainNode.events)
            = some ((layerW.gainNode.events.filter (fun e => decide (e.time < sW.now)))
                ++ [AutomEvent.setValue 0 sW.now,
                    AutomEvent.linearRamp layerW.volume (sW.now + sW.config.fadeDuration)]))
    ∧ (((setLayerVolume sW "a" (1/2)).pendingTimers = sW.pendingTimers)
        ∧ (lookupLayer (setLayerVolume sW "a" (1/2)) "a").map (fun l => l.gainNode.events)
          = some ((layerW.gainNode.events.filter (fun e => decide (e.time < sW.now)))
              ++ [AutomEvent.setValue
                    ((layerW.gainNode.cancelScheduledValues sW.now).valueAt sW.now) sW.now,
                  AutomEvent.linearRamp (1/2) (sW.now + 0.05)])) :=
  later_command_cancels_ramps_but_not_timer rZero sW "a" "white" layerW
    (Cmd.stop "b") (1/2) true
    (by with_unfolding_all decide) (by with_unfolding_all decide)
    (by with_unfolding_all decide) (by with_unfolding_all decide)
    (Or.inl rfl) (by decide)

/-- Trace with crossfade disabled: create a layer, play white noise. -/
def c2Trace : List Cmd :=
  [Cmd.initCtx 1 true, Cmd.createLayer "a" (1/2),
   Cmd.setConfig { fadeDuration := none, enableCrossfade := some false,
                   loopLayers := none, sampleRate := none },
   Cmd.play "a" "noise" "white" true]

/-- Trace with crossfade enabled: play, stopAll, let the fade-out
teardown fire, then playAll. -/
def c2TraceCf : List Cmd :=
  [Cmd.initCtx 1 true, Cmd.createLayer "a" (1/2),
   Cmd.play "a" "noise" "white" true, Cmd.stopAll,
   Cmd.advance 1, Cmd.fireTimer, Cmd.playAll true]

/-- C2 (code bug): the layer remembers "noise/white" when `stopAll` is
issued, but teardown nulls `currentSound`, so after the stop completes
a `playAll` finds no remembered sound reference and restores nothing —
with crossfade disabled or enabled alike.  The spec says `playAll` is
used to resume after a global stop; the code makes that impossible. -/
theorem stopAll_playAll_restores_nothing :
    (lookupLayer (run rZero c2Trace initialState) "a").map Layer.currentSound
        = some (some "noise/white")
    ∧ (lookupLayer (run rZero c2Trace initialState) "a").map Layer.isPlaying = some true
    ∧ (lookupLayer (run rZero (c2Trace ++ [Cmd.stopAll]) initialState) "a").map
        Layer.currentSound = some none
    ∧ (lookupLayer (run rZero (c2Trace ++ [Cmd.stopAll, Cmd.playAll true]) initialState) "a").map
        Layer.isPlaying = some false
    ∧ (lookupLayer (run rZero c2TraceCf initialState) "a").map Layer.isPlaying = some false
    ∧ (lookupLayer (run rZero c2TraceCf initialState) "a").map Layer.currentSound = some none := by
  with_unfolding_all decide

/-- An engine whose audio context reports a 3 Hz sample rate while the
configuration still holds the default 44100. -/
def s3ctx : EngineState := run rZero [Cmd.initCtx 3 true] initialState

/-- C3 counterexample: the generated buffer has
`2 * audioContext.sampleRate` samples (6 here), not
`2 * config.sampleRate` (88200): `config.sampleRate` is ignored. -/
theorem noiseBuffer_length_ignores_config_sampleRate :
    (createNoiseBuffer s3ctx "white" rZero).length = 6
    ∧ s3ctx.config.sampleRate = 44100
    ∧ (6 : ℕ) ≠ 2 * 44100 := by
  with_unfolding_all decide

/-- C3 (amended): for every noise color the buffer's sample count is
`durationSeconds * sampleRate` with `durationSeconds = 2` and
`sampleRate` the audio context's own sample rate; the configured
`config.sampleRate` option is not consulted. -/
theorem createNoiseBuffer_length_eq_two_ctx_rate (s : EngineState) (noiseType : String)
    (rand : ℕ → ℚ) : (createNoiseBuffer s noiseType rand).length = 2 * s.ctxSampleRate := by
  unfold createNoiseBuffer
  simp [List.length_map, List.length_range, Nat.mul_comm]

/-- C4 counterexample: `setLayerVolume` stores its argument verbatim —
no clamping — so a volume of 2 is stored and scheduled as 2, outside
`[0, 1]`. -/
theorem setLayerVolume_does_not_clamp :
    (lookupLayer (run rZero [Cmd.initCtx 1 true, Cmd.createLayer "a" (1/2),
        Cmd.setLayerVolume "a" 2] initialState) "a").map Layer.volume = some 2
    ∧ ¬ ((2 : ℚ) ≤ 1) := by
  with_unfolding_all decide

/-- C4 (amended): the engine never clamps, but when every volume passed
to `createLayer`, `setLayerVolume` and `setMasterVolume` lies in
`[0, 1]`, then after any command sequence every stored layer volume,
every gain base value and every scheduled gain target — for layers and
master alike — stays within `[0, 1]`. -/
theorem gains_stay_clamped_for_clamped_inputs (rand : ℕ → ℚ) (cmds : List Cmd)
    (hg : ∀ c ∈ cmds, goodCmd c) : EngineInv (run rand cmds initialState) :=
  EngineInv_run rand cmds initialState (by decide) hg

/-- Witness for the amended C4 theorem on a concrete command list. -/
theorem gains_stay_clamped_for_clamped_inputs_witness :
    EngineInv (run rZero [Cmd.initCtx 1 true, Cmd.createLayer "a" (1/2),
      Cmd.setLayerVolume "a" 1] initialState) :=
  gains_stay_clamped_for_clamped_inputs rZero
    [Cmd.initCtx 1 true, Cmd.createLayer "a" (1/2), Cmd.setLayerVolume "a" 1]
    (by with_unfolding_all decide)

set_option maxRecDepth 8000 in
/-- C6 counterexample: with every draw equal to 199/200 (a legal
`Math.random()` value, giving white samples of 0.99), the brown-noise
sample at index 50 exceeds 2 after the 3.5x compensation scaling — far
outside [-1, 1]. -/
theorem brownSample_escapes_unit_range :
    ((0 : ℚ) ≤ 199/200 ∧ (199 : ℚ)/200 ≤ 1)
    ∧ 2 < brownSample (fun _ => 199/200) 50 := by
  with_unfolding_all decide

lemma abs_whiteSample_le {rand : ℕ → ℚ} (h : ∀ i, 0 ≤ rand i ∧ rand i ≤ 1) (i : ℕ) :
    |whiteSample rand i| ≤ 1 := by
  unfold whiteSample
  have h1 := (h i).1
  have h2 := (h i).2
  rw [abs_le]
  constructor <;> linarith

lemma brown_step_bound (p w : ℚ) (hp : |p| ≤ 1) (hw : |w| ≤ 1) :
    |(p + 0.02 * w) / 1.02| ≤ 1 := by
  rw [abs_div, abs_of_pos (by norm_num : (0:ℚ) < 1.02), div_le_one (by norm_num : (0:ℚ) < 1.02)]
  calc |p + 0.02 * w| ≤ |p| + |0.02 * w| := abs_add _ _
    _ = |p| + 0.02 * |w| := by rw [abs_mul, abs_of_pos (by norm_num : (0:ℚ) < 0.02)]
    _ ≤ 1 + 0.02 * 1 := by
        have := mul_le_mul_of_nonneg_left hw (by norm_num : (0:ℚ) ≤ 0.02)
        linarith
    _ ≤ 1.02 := by norm_num

lemma abs_brownPre_le {rand : ℕ → ℚ} (h : ∀ i, 0 ≤ rand i ∧ rand i ≤ 1) :
    ∀ n, |brownPre rand n| ≤ 1 := by
  intro n
  induction n with
  | zero =>
      unfold brownPre
      exact brown_step_bound 0 _ (by simp) (abs_whiteSample_le h 0)
  | succ n ih =>
      unfold brownPre
      exact brown_step_bound _ _ ih (abs_whiteSample_le h (n + 1))

lemma lin_comb_abs_le (d g b w M C : ℚ) (hd : 0 ≤ d) (hg : 0 ≤ g)
    (hb : |b| ≤ M) (hw : |w| ≤ 1) (hC : d * M + g ≤ C) :
    |d * b + w * g| ≤ C := by
  have hM : 0 ≤ M := le_trans (abs_nonneg b) hb
  calc |d * b + w * g| ≤ |d * b| + |w * g| := abs_add _ _
    _ = d * |b| + |w| * g := by rw [abs_mul, abs_mul, abs_of_nonneg hd, abs_of_nonneg hg]
    _ ≤ d * M + 1 * g := by
        have h1 := mul_le_mul_of_nonneg_left hb hd
        have h2 := mul_le_mul_of_nonneg_right hw hg
        linarith
    _ ≤ C := by linarith

lemma pinkStateAt_bounds {rand : ℕ → ℚ} (h : ∀ i, 0 ≤ rand i ∧ rand i ≤ 1) :
    ∀ n, |(pinkStateAt rand n).b0| ≤ 49 ∧ |(pinkStateAt rand n).b1| ≤ 11.3
      ∧ |(pinkStateAt rand n).b2| ≤ 5 ∧ |(pinkStateAt rand n).b3| ≤ 2.33
      ∧ |(pinkStateAt rand n).b4| ≤ 1.19 ∧ |(pinkStateAt rand n).b5| ≤ 0.08
      ∧ |(pinkStateAt rand n).b6| ≤ 0.12 := by
  intro n
  induction n with
  | zero =>
      refine ⟨?_, ?_, ?_, ?_, ?_, ?_, ?_⟩ <;> simp [pinkStateAt, pinkInit] <;> norm_num
  | succ n ih =>
      obtain ⟨h0, h1, h2, h3, h4, h5, _⟩ := ih
      have hw := abs_whiteSample_le h n
      refine ⟨?_, ?_, ?_, ?_, ?_, ?_, ?_⟩
      · show |0.99886 * (pinkStateAt rand n).b0 + whiteSample rand n * 0.0555179| ≤ 49
        exact lin_comb_abs_le _ _ _ _ _ _ (by norm_num) (by norm_num) h0 hw (by norm_num)
      · show |0.99332 * (pinkStateAt rand n).b1 + whiteSample rand n * 0.0750759| ≤ 11.3
        exact lin_comb_abs_le _ _ _ _ _ _ (by norm_num) (by norm_num) h1 hw (by norm_num)
      · show |0.96900 * (pinkStateAt rand n).b2 + whiteSample rand n * 0.1538520| ≤ 5
        exact lin_comb_abs_le _ _ _ _ _ _ (by norm_num) (by norm_num) h2 hw (by norm_num)
      · show |0.86650 * (pinkStateAt rand n).b3 + whiteSample rand n * 0.3104856| ≤ 2.33
        exact lin_comb_abs_le _ _ _ _ _ _ (by norm_num) (by norm_num) h3 hw (by norm_num)
      · show |0.55000 * (pinkStateAt rand n).b4 + whiteSample rand n * 0.5329522| ≤ 1.19
        exact lin_comb_abs_le _ _ _ _ _ _ (by norm_num) (by norm_num) h4 hw (by norm_num)
      · show |(-0.7616) * (pinkStateAt rand n).b5 - whiteSample rand n * 0.0168980| ≤ 0.08
        have heq : (-0.7616) * (pinkStateAt rand n).b5 - whiteSample rand n * 0.0168980
            = -(0.7616 * (pinkStateAt rand n).b5 + whiteSample rand n * 0.0168980) := by ring
        rw [heq, abs_neg]
        exact lin_comb_abs_le _ _ _ _ _ _ (by norm_num) (by norm_num) h5 hw (by norm_num)
      · show |whiteSample rand n * 0.115926| ≤ 0.12
        rw [abs_mul, abs_of_pos (by norm_num : (0:ℚ) < 0.115926)]
        have := mul_le_mul_of_nonneg_right hw (by norm_num : (0:ℚ) ≤ 0.115926)
        linarith

/-- C6 (amended): sample bounds hold per color, but they are not all
within [-1, 1]: for any draw stream in [0, 1], white samples stay in
[-1, 1]; brown samples stay within [-3.5, 3.5] after the 3.5x
compensation scaling (and can approach 3.5, see the counterexample);
pink samples stay within [-8, 8]. -/
theorem noise_samples_bounded (rand : ℕ → ℚ) (h : ∀ i, 0 ≤ rand i ∧ rand i ≤ 1) :
    (∀ i, |whiteSample rand i| ≤ 1)
    ∧ (∀ i, |brownSample rand i| ≤ 3.5)
    ∧ (∀ i, |pinkSample rand i| ≤ 8) := by
  refine ⟨abs_whiteSample_le h, ?_, ?_⟩
  · intro i
    unfold brownSample
    rw [abs_mul, abs_of_pos (by norm_num : (0:ℚ) < 3.5)]
    have := abs_brownPre_le h i
    nlinarith [abs_nonneg (brownPre rand i)]
  · intro i
    have hb := pinkStateAt_bounds h (i + 1)
    have hb6 := (pinkStateAt_bounds h i).2.2.2.2.2.2
    have hw := abs_whiteSample_le h i
    have hexpr : pinkSample rand i
        = ((pinkStateAt rand (i + 1)).b0 + (pinkStateAt rand (i + 1)).b1
            + (pinkStateAt rand (i + 1)).b2 + (pinkStateAt rand (i + 1)).b3
            + (pinkStateAt rand (i + 1)).b4 + (pinkStateAt rand (i + 1)).b5
            + (pinkStateAt rand i).b6 + whiteSample rand i * 0.5362) * 0.11 := by
      show (pinkStep (pinkStateAt rand i) (whiteSample rand i)).2 = _
      rw [show pinkStateAt rand (i + 1)
          = (pinkStep (pinkStateAt rand i) (whiteSample rand i)).1 from rfl]
      simp only [pinkStep]
    rw [hexpr]
    obtain ⟨k0, k1, k2, k3, k4, k5, _⟩ := hb
    rw [abs_le] at k0 k1 k2 k3 k4 k5 hb6 hw ⊢
    constructor <;> nlinarith [k0.1, k0.2, k1.1, k1.2, k2.1, k2.2, k3.1, k3.2,
      k4.1, k4.2, k5.1, k5.2, hb6.1, hb6.2, hw.1, hw.2]

/-- Witness for the amended C6 theorem at a constant draw stream. -/
theorem noise_samples_bounded_witness :
    |whiteSample (fun _ => 1/2) 0| ≤ 1
    ∧ |brownSample (fun _ => 1/2) 3| ≤ 3.5
    ∧ |pinkSample (fun _ => 1/2) 2| ≤ 8 :=
  ⟨(noise_samples_bounded (fun _ => 1/2) (fun _ => by norm_num)).1 0,
   (noise_samples_bounded (fun _ => 1/2) (fun _ => by norm_num)).2.1 3,
   (noise_samples_bounded (fun _ => 1/2) (fun _ => by norm_num)).2.2 2⟩

lemma fadeIn_noiseGenerators (s : EngineState) (layerId : String) :
    (fadeIn s layerId).noiseGenerators = s.noiseGenerators := by
  unfold fadeIn
  cases lookupLayer s layerId with
  | none => rfl
  | some layer => rfl

lemma fadeIn_lookup {s : EngineState} {layerId : String} {l0 : Layer}
    (hl : lookupLayer s layerId = some l0) :
    lookupLayer (fadeIn s layerId) layerId = some
      { l0 with gainNode := ((l0.gainNode.cancelScheduledValues s.now).setValueAtTime 0 s.now).linearRampToValueAtTime l0.volume (s.now + s.config.fadeDuration) } := by
  unfold fadeIn
  rw [hl]
  show lookupLayer (updateLayer s layerId (fun l =>
      let pinned := (l.gainNode.cancelScheduledValues s.now).setValueAtTime 0 s.now
      { l with gainNode :=
          pinned.linearRampToValueAtTime l0.volume (s.now + s.config.fadeDuration) })) layerId = _
  rw [lookupLayer_updateLayer_self, hl]
  rfl

/-- C7: noise-buffer generation is an idempotent get-or-create — when
the cache already holds a buffer for the requested color, a later
request returns a state independent of the fresh random draws (the
generator never runs again), leaves the cache untouched, and binds the
cached buffer as the layer's source. -/
theorem generateAndPlayNoise_cache_hit (s : EngineState) (layerId noiseType k : String)
    (B : List ℚ) (rand rand' : ℕ → ℚ)
    (hc : s.noiseGenerators.find? (fun p => p.1 == noiseType) = some (k, B))
    (hl : (lookupLayer s layerId).isSome = true) :
    generateAndPlayNoise s layerId noiseType rand
        = generateAndPlayNoise s layerId noiseType rand'
    ∧ (generateAndPlayNoise s layerId noiseType rand).noiseGenerators = s.noiseGenerators
    ∧ (lookupLayer (generateAndPlayNoise s layerId noiseType rand) layerId).map
        (fun l => l.sourceNode) = some (some (SourceNode.bufferSource B)) := by
  obtain ⟨layer, hlayer⟩ := Option.isSome_iff_exists.mp hl
  unfold generateAndPlayNoise
  rw [hlayer]
  simp only [hc, Option.isSome_some, eq_self_iff_true, if_true]
  refine ⟨trivial, ?_, ?_⟩
  · simp only [updateLayer_config]
    by_cases hcf : s.config.enableCrossfade = true
    · simp only [hcf, if_true]
      show (fadeIn (updateLayer s layerId (fun l =>
          { l with noiseSource := some (SourceNode.bufferSource (k, B).2),
                   sourceNode := some (SourceNode.bufferSource (k, B).2),
                   currentSound := some ("noise/" ++ noiseType),
                   isPlaying := true })) layerId).noiseGenerators = s.noiseGenerators
      rw [fadeIn_noiseGenerators]
      rfl
    · simp only [Bool.not_eq_true] at hcf
      simp only [hcf, Bool.false_eq_true, if_false]
      rfl
  · simp only [updateLayer_config, lookupLayer_set_log]
    by_cases hcf : s.config.enableCrossfade = true
    · simp only [hcf, if_true]
      rw [fadeIn_lookup (show lookupLayer (updateLayer s layerId (fun l =>
          { l with noiseSource := some (SourceNode.bufferSource (k, B).2),
                   sourceNode := some (SourceNode.bufferSource (k, B).2),
                   currentSound := some ("noise/" ++ noiseType),
                   isPlaying := true })) layerId = some ({ layer with
                     noiseSource := some (SourceNode.bufferSource (k, B).2),
                     sourceNode := some (SourceNode.bufferSource (k, B).2),
                     currentSound := some ("noise/" ++ noiseType),
                     isPlaying := true }) by rw [lookupLayer_updateLayer_self, hlayer]; rfl)]
      rfl
    · simp only [Bool.not_eq_true] at hcf
      simp only [hcf, Bool.false_eq_true, if_false]
      rw [lookupLayer_updateLayer_self, hlayer]
      rfl

/-- Witness for C7 at the concrete state `sW`, whose cache already
holds the white buffer: two later requests with different draw streams
coincide, keep the cache, and bind the cached buffer. -/
theorem generateAndPlayNoise_cache_hit_witness :
    generateAndPlayNoise sW "a" "white" (fun _ => 7)
        = generateAndPlayNoise sW "a" "white" (fun _ => 9)
    ∧ (generateAndPlayNoise sW "a" "white" (fun _ => 7)).noiseGenerators = sW.noiseGenerators
    ∧ (lookupLayer (generateAndPlayNoise sW "a" "white" (fun _ => 7)) "a").map
        (fun l => l.sourceNode) = some (some (SourceNode.bufferSource [-1, -1])) :=
  generateAndPlayNoise_cache_hit sW "a" "white" "white" [-1, -1] (fun _ => 7) (fun _ => 9)
    (by with_unfolding_all decide) (by with_unfolding_all decide)

lemma _stopLayerImmediately_lookup {s : EngineState} {layerId : String} {l0 : Layer}
    (hl : lookupLayer s layerId = some l0) :
    lookupLayer (_stopLayerImmediately s layerId) layerId = some
      { l0 with audioElement := none, noiseSource := none, sourceNode := none,
                currentSound := none, isPlaying := false } := by
  unfold _stopLayerImmediately
  rw [hl]
  simp only [lookupLayer_set_log]
  rw [lookupLayer_updateLayer_self, hl]
  rfl

lemma _stopLayerImmediately_config (s : EngineState) (layerId : String) :
    (_stopLayerImmediately s layerId).config = s.config := by
  unfold _stopLayerImmediately
  cases lookupLayer s layerId with
  | none => rfl
  | some _ => rfl

lemma _stopLayerImmediately_now (s : EngineState) (layerId : String) :
    (_stopLayerImmediately s layerId).now = s.now := by
  unfold _stopLayerImmediately
  cases lookupLayer s layerId with
  | none => rfl
  | some _ => rfl

lemma stopLayer_nofade_eq {s : EngineState} {layerId : String} {layer : Layer}
    (hl : lookupLayer s layerId = some layer)
    (hcf : s.config.enableCrossfade = false) :
    stopLayer s layerId = _stopLayerImmediately s layerId := by
  unfold stopLayer
  rw [hl]
  simp [hcf]

lemma stopLayer_config (s : EngineState) (layerId : String) :
    (stopLayer s layerId).config = s.config := by
  unfold stopLayer
  cases lookupLayer s layerId with
  | none => rfl
  | some layer =>
      by_cases h : (s.config.enableCrossfade && layer.isPlaying) = true
      · simp only [h, if_true]
        exact fadeOut_config s layerId true
      · simp only [Bool.not_eq_true] at h
        simp only [h, Bool.false_eq_true, if_false]
        exact _stopLayerImmediately_config s layerId

lemma generateTone_lookup {s : EngineState} {layerId : String} {l0 : Layer} (freq : ℚ)
    (hl : lookupLayer s layerId = some l0) :
    lookupLayer (generateTone s layerId freq) layerId = some
      { l0 with sourceNode := some (SourceNode.oscillator freq),
                currentSound := some ("tone/" ++ toString freq ++ "Hz"),
                isPlaying := true } := by
  unfold generateTone
  rw [hl]
  simp only [lookupLayer_set_log]
  rw [lookupLayer_updateLayer_self, hl]
  rfl

lemma generateTone_log {s : EngineState} {layerId : String} {l0 : Layer} (freq : ℚ)
    (hl : lookupLayer s layerId = some l0) :
    (generateTone s layerId freq).log
      = ("Playing fallback tone: " ++ toString freq ++ "Hz on layer " ++ layerId) :: s.log := by
  unfold generateTone
  rw [hl]
  rfl

lemma generateAndPlayNoise_gain_nofade {s : EngineState} {layerId noiseType : String}
    {l0 : Layer} (rand : ℕ → ℚ) (hl : lookupLayer s layerId = some l0)
    (hcf : s.config.enableCrossfade = false) :
    (lookupLayer (generateAndPlayNoise s layerId noiseType rand) layerId).map
        (fun l => l.gainNode) = some l0.gainNode := by
  unfold generateAndPlayNoise
  rw [hl]
  by_cases hc : (s.noiseGenerators.find? (fun p => p.1 == noiseType)).isSome = true
  · obtain ⟨pr, hpr⟩ := Option.isSome_iff_exists.mp hc
    simp only [hpr, Option.isSome_some, eq_self_iff_true, if_true, lookupLayer_set_log,
      updateLayer_enableCrossfade, hcf, Bool.false_eq_true, if_false]
    rw [lookupLayer_updateLayer_self, hl]
    rfl
  · simp only [Bool.not_eq_true] at hc
    have hnone : s.noiseGenerators.find? (fun p => p.1 == noiseType) = none := by
      cases hfind : s.noiseGenerators.find? (fun p => p.1 == noiseType) with
      | none => rfl
      | some pr => rw [hfind] at hc; cases hc
    have hfind2 : (s.noiseGenerators ++ [(noiseType, createNoiseBuffer s noiseType rand)]).find?
        (fun p => p.1 == noiseType) = some (noiseType, createNoiseBuffer s noiseType rand) := by
      rw [find?_append_none _ _ hnone]
      simp
    simp only [hc, Bool.false_eq_true, if_false, hfind2, lookupLayer_set_log,
      updateLayer_enableCrossfade, hcf]
    rw [lookupLayer_updateLayer_self]
    simp only [lookupLayer_set_noiseGenerators]
    rw [hl]
    rfl

/-- C8 (amended): when crossfade is disabled, starting playback
performs no gain operation at all — `fadeIn` is never invoked and the
layer's gain param (base value and scheduled events alike) is left
exactly as it was, which need not equal the stored target volume. -/
theorem play_without_crossfade_leaves_gain_unchanged
    (s : EngineState) (layerId ty nm : String) (layer : Layer) (rand : ℕ → ℚ) (ok : Bool)
    (hcf : s.config.enableCrossfade = false) (hl : lookupLayer s layerId = some layer) :
    ∃ s', loadAndPlayAudio s layerId ty nm rand ok = .ok s'
      ∧ (lookupLayer s' layerId).map (fun l => l.gainNode) = some layer.gainNode := by
  have hstopeq := stopLayer_nofade_eq hl hcf
  have hstoplk : lookupLayer (stopLayer s layerId) layerId = some
      { layer with audioElement := none, noiseSource := none, sourceNode := none,
                   currentSound := none, isPlaying := false } := by
    rw [hstopeq]
    exact _stopLayerImmediately_lookup hl
  have hstopcf : (stopLayer s layerId).config.enableCrossfade = false := by
    rw [stopLayer_config]
    exact hcf
  unfold loadAndPlayAudio
  rw [hl]
  by_cases hn : ty = "noise" ∧ (nm = "white" ∨ nm = "pink" ∨ nm = "brown")
  · rw [if_pos hn]
    refine ⟨_, rfl, ?_⟩
    rw [generateAndPlayNoise_gain_nofade rand hstoplk hstopcf]
  · rw [if_neg hn]
    cases hlib : audioLibrary ty nm with
    | none =>
        refine ⟨_, rfl, ?_⟩
        rw [generateTone_lookup 220 (show lookupLayer { stopLayer s layerId with
          log := ("Audio not found: " ++ ty ++ "/" ++ nm) :: (stopLayer s layerId).log }
            layerId = some _ by rw [lookupLayer_set_log]; exact hstoplk)]
        rfl
    | some opt =>
        cases opt with
        | none =>
            refine ⟨_, rfl, ?_⟩
            rw [generateTone_lookup 220 (show lookupLayer { stopLayer s layerId with
              log := ("Audio not found: " ++ ty ++ "/" ++ nm) :: (stopLayer s layerId).log }
                layerId = some _ by rw [lookupLayer_set_log]; exact hstoplk)]
            rfl
        | some audioPath =>
            have hs2lk : lookupLayer (updateLayer (stopLayer s layerId) layerId (fun l =>
                { l with audioElement := some (AudioElem.mk audioPath (stopLayer s layerId).config.loopLayers),
                         sourceNode := some (SourceNode.mediaElement audioPath),
                         currentSound := some (ty ++ "/" ++ nm) })) layerId = some
                { layer with
                  audioElement := some (AudioElem.mk audioPath (stopLayer s layerId).config.loopLayers),
                  noiseSource := none,
                  sourceNode := some (SourceNode.mediaElement audioPath),
                  currentSound := some (ty ++ "/" ++ nm), isPlaying := false } := by
              rw [lookupLayer_updateLayer_self, hstoplk]
              rfl
            simp only [updateLayer_enableCrossfade, hstopcf, Bool.false_eq_true, if_false]
            by_cases hok : ok = true
            · rw [if_pos hok]
              refine ⟨_, rfl, ?_⟩
              simp only [lookupLayer_set_log]
              rw [lookupLayer_updateLayer_self, hs2lk]
              rfl
            · simp only [Bool.not_eq_true] at hok
              rw [hok]
              simp only [Bool.false_eq_true, if_false]
              refine ⟨_, rfl, ?_⟩
              rw [generateTone_lookup 220 (show lookupLayer { updateLayer (stopLayer s layerId)
                  layerId (fun l =>
                    { l with audioElement := some (AudioElem.mk audioPath (stopLayer s layerId).config.loopLayers),
                             sourceNode := some (SourceNode.mediaElement audioPath),
                             currentSound := some (ty ++ "/" ++ nm) }) with
                  log := ("Error loading audio for " ++ layerId)
                    :: (updateLayer (stopLayer s layerId) layerId (fun l =>
                      { l with audioElement := some (AudioElem.mk audioPath (stopLayer s layerId).config.loopLayers),
                               sourceNode := some (SourceNode.mediaElement audioPath),
                               currentSound := some (ty ++ "/" ++ nm) })).log }
                  layerId = some _ by rw [lookupLayer_set_log]; exact hs2lk)]
              rfl

/-- Trace for the stale-gain scenario: play and stop with crossfade
enabled (the fade-out drives the gain to 0 and teardown completes),
then disable crossfade and play again. -/
def c8Trace : List Cmd :=
  [Cmd.initCtx 1 true, Cmd.createLayer "a" (3/5),
   Cmd.play "a" "noise" "white" true, Cmd.stop "a",
   Cmd.advance 1, Cmd.fireTimer,
   Cmd.setConfig { fadeDuration := none, enableCrossfade := some false,
                   loopLayers := none, sampleRate := none },
   Cmd.play "a" "noise" "white" true]

/-- C8 counterexample: with crossfade disabled, starting playback does
NOT apply the layer's target gain — the layer plays with its gain still
at 0 (left over from the earlier fade-out) while the stored target
volume is 3/5. -/
theorem play_without_crossfade_keeps_stale_gain :
    (lookupLayer (run rZero c8Trace initialState) "a").map
        (fun l => l.gainNode.valueAt (run rZero c8Trace initialState).now) = some 0
    ∧ (lookupLayer (run rZero c8Trace initialState) "a").map Layer.volume = some (3/5)
    ∧ (lookupLayer (run rZero c8Trace initialState) "a").map Layer.isPlaying = some true
    ∧ (0 : ℚ) ≠ 3/5 := by
  with_unfolding_all decide

/-- A concrete engine with crossfade disabled and layer "a" created. -/
def sNoFade : EngineState :=
  run rZero [Cmd.initCtx 1 true, Cmd.createLayer "a" (1/2),
    Cmd.setConfig { fadeDuration := none, enableCrossfade := some false,
                    loopLayers := none, sampleRate := none }] initialState

/-- The layer object stored under "a" in `sNoFade`. -/
def layerNF : Layer :=
  (lookupLayer sNoFade "a").getD
    { id := "", audioElement := none, sourceNode := none,
      gainNode := { base := 0, events := [] }, analyserFftSize := 0,
      currentSound := none, isPlaying := false, volume := 0,
      noiseBuffer := none, noiseSource := none }

/-- Witness for the amended C8 theorem at the concrete state `sNoFade`. -/
theorem play_without_crossfade_leaves_gain_unchanged_witness :
    ∃ s', loadAndPlayAudio sNoFade "a" "noise" "white" rZero true = .ok s'
      ∧ (lookupLayer s' "a").map (fun l => l.gainNode) = some layerNF.gainNode :=
  play_without_crossfade_leaves_gain_unchanged sNoFade "a" "noise" "white" layerNF rZero true
    (by with_unfolding_all decide) (by with_unfolding_all decide)

lemma stopLayer_lookup_some {s : EngineState} {layerId : String} {layer : Layer}
    (hl : lookupLayer s layerId = some layer) :
    ∃ l', lookupLayer (stopLayer s layerId) layerId = some l' := by
  unfold stopLayer
  rw [hl]
  by_cases h : (s.config.enableCrossfade && layer.isPlaying) = true
  · simp only [h, if_true]
    exact ⟨_, fadeOut_lookup hl⟩
  · simp only [Bool.not_eq_true] at h
    simp only [h, Bool.false_eq_true, if_false]
    exact ⟨_, _stopLayerImmediately_lookup hl⟩

/-- C9: a file-backed play request whose asset cannot be resolved (no
library entry, or a `null` generated marker reached through this path)
or whose load/decode fails recovers locally: the engine binds a 220 Hz
sine oscillator as the layer's source, marks the layer playing, logs
the failure, and returns normally instead of raising the error. -/
theorem file_failure_falls_back_to_oscillator
    (s : EngineState) (layerId ty nm : String) (layer : Layer) (rand : ℕ → ℚ) (ok : Bool)
    (hl : lookupLayer s layerId = some layer)
    (hnoise : ¬(ty = "noise" ∧ (nm = "white" ∨ nm = "pink" ∨ nm = "brown")))
    (hfail : audioLibrary ty nm = none ∨ audioLibrary ty nm = some none ∨ ok = false) :
    ∃ s', loadAndPlayAudio s layerId ty nm rand ok = .ok s'
      ∧ (lookupLayer s' layerId).map (fun l => l.sourceNode)
          = some (some (SourceNode.oscillator 220))
      ∧ (lookupLayer s' layerId).map (fun l => l.currentSound)
          = some (some ("tone/" ++ toString (220 : ℚ) ++ "Hz"))
      ∧ (lookupLayer s' layerId).map (fun l => l.isPlaying) = some true
      ∧ (("Audio not found: " ++ ty ++ "/" ++ nm) ∈ s'.log
          ∨ ("Error loading audio for " ++ layerId) ∈ s'.log) := by
  obtain ⟨lS, hS⟩ := stopLayer_lookup_some hl
  unfold loadAndPlayAudio
  rw [hl, if_neg hnoise]
  cases hlib : audioLibrary ty nm with
  | none =>
      have hSlog : lookupLayer { stopLayer s layerId with
          log := ("Audio not found: " ++ ty ++ "/" ++ nm) :: (stopLayer s layerId).log }
          layerId = some lS := by rw [lookupLayer_set_log]; exact hS
      refine ⟨_, rfl, ?_, ?_, ?_, ?_⟩
      · rw [generateTone_lookup 220 hSlog]
        rfl
      · rw [generateTone_lookup 220 hSlog]
        rfl
      · rw [generateTone_lookup 220 hSlog]
        rfl
      · left
        rw [generateTone_log 220 hSlog]
        exact List.mem_cons_of_mem _ (List.mem_cons_self _ _)
  | some opt =>
      cases opt with
      | none =>
          have hSlog : lookupLayer { stopLayer s layerId with
              log := ("Audio not found: " ++ ty ++ "/" ++ nm) :: (stopLayer s layerId).log }
              layerId = some lS := by rw [lookupLayer_set_log]; exact hS
          refine ⟨_, rfl, ?_, ?_, ?_, ?_⟩
          · rw [generateTone_lookup 220 hSlog]
            rfl
          · rw [generateTone_lookup 220 hSlog]
            rfl
          · rw [generateTone_lookup 220 hSlog]
            rfl
          · left
            rw [generateTone_log 220 hSlog]
            exact List.mem_cons_of_mem _ (List.mem_cons_self _ _)
      | some audioPath =>
          have hok : ok = false := by
            rcases hfail with h | h | h
            · rw [hlib] at h; cases h
            · rw [hlib] at h; cases h
            · exact h
          rw [hok]
          simp only [Bool.false_eq_true, if_false]
          have hs2 : lookupLayer (updateLayer (stopLayer s layerId) layerId (fun l =>
              { l with audioElement := some (AudioElem.mk audioPath (stopLayer s layerId).config.loopLayers),
                       sourceNode := some (SourceNode.mediaElement audioPath),
                       currentSound := some (ty ++ "/" ++ nm) })) layerId = some
              { lS with audioElement := some (AudioElem.mk audioPath (stopLayer s layerId).config.loopLayers),
                        sourceNode := some (SourceNode.mediaElement audioPath),
                        currentSound := some (ty ++ "/" ++ nm) } := by
            rw [lookupLayer_updateLayer_self, hS]
            rfl
          set s2 := updateLayer (stopLayer s layerId) layerId (fun l =>
              { l with audioElement := some (AudioElem.mk audioPath (stopLayer s layerId).config.loopLayers),
                       sourceNode := some (SourceNode.mediaElement audioPath),
                       currentSound := some (ty ++ "/" ++ nm) }) with hs2def
          have h3 : ∃ l3, lookupLayer (if s2.config.enableCrossfade then fadeIn s2 layerId else s2)
              layerId = some l3 := by
            by_cases hcf : s2.config.enableCrossfade = true
            · simp only [hcf, if_true]
              exact ⟨_, fadeIn_lookup hs2⟩
            · simp only [Bool.not_eq_true] at hcf
              simp only [hcf, Bool.false_eq_true, if_false]
              exact ⟨_, hs2⟩
          obtain ⟨l3, hl3⟩ := h3
          have hl3log : lookupLayer { (if s2.config.enableCrossfade then fadeIn s2 layerId else s2) with
              log := ("Error loading audio for " ++ layerId)
                :: (if s2.config.enableCrossfade then fadeIn s2 layerId else s2).log }
              layerId = some l3 := by rw [lookupLayer_set_log]; exact hl3
          refine ⟨_, rfl, ?_, ?_, ?_, ?_⟩
          · rw [generateTone_lookup 220 hl3log]
            rfl
          · rw [generateTone_lookup 220 hl3log]
            rfl
          · rw [generateTone_lookup 220 hl3log]
            rfl
          · right
            rw [generateTone_log 220 hl3log]
            exact List.mem_cons_of_mem _ (List.mem_cons_self _ _)

/-- Witness for C9: playing an unknown nature sound on the concrete
state `sW` falls back to the 220 Hz oscillator. -/
theorem file_failure_falls_back_to_oscillator_witness :
    ∃ s', loadAndPlayAudio sW "a" "nature" "nope" rZero true = .ok s'
      ∧ (lookupLayer s' "a").map (fun l => l.sourceNode)
          = some (some (SourceNode.oscillator 220))
      ∧ (lookupLayer s' "a").map (fun l => l.currentSound)
          = some (some ("tone/" ++ toString (220 : ℚ) ++ "Hz"))
      ∧ (lookupLayer s' "a").map (fun l => l.isPlaying) = some true
      ∧ (("Audio not found: " ++ "nature" ++ "/" ++ "nope") ∈ s'.log
          ∨ ("Error loading audio for " ++ "a") ∈ s'.log) :=
  file_failure_falls_back_to_oscillator sW "a" "nature" "nope" layerW rZero true
    (by with_unfolding_all decide) (by with_unfolding_all decide)
    (Or.inl (by with_unfolding_all decide))

/-- C10: `getAnalyserData` returns `none` exactly when the layer id is
unknown or the layer is not playing; for an existing playing layer it
returns the `frequencyBinCount` (= `fftSize / 2`) analyser bytes. -/
theorem getAnalyserData_contract (s : EngineState) (layerId : String) (bytes : ℕ → ℕ) :
    (getAnalyserData s layerId bytes = none ↔
      lookupLayer s layerId = none
        ∨ ∃ l, lookupLayer s layerId = some l ∧ l.isPlaying = false)
    ∧ ∀ l, lookupLayer s layerId = some l → l.isPlaying = true →
        getAnalyserData s layerId bytes
          = some ((List.range (l.analyserFftSize / 2)).map bytes) := by
  unfold getAnalyserData
  cases hl : lookupLayer s layerId with
  | none =>
      refine ⟨⟨fun _ => Or.inl rfl, fun _ => rfl⟩, ?_⟩
      intro l hsome
      cases hsome
  | some layer =>
      by_cases hp : layer.isPlaying = true
      · constructor
        · simp only [hp, if_true]
          constructor
          · intro h
            cases h
          · rintro (h | ⟨l, hsome, hfalse⟩)
            · cases h
            · have hle : layer = l := by injection hsome
              rw [← hle, hp] at hfalse
              cases hfalse
        · intro l hsome _
          have hle : layer = l := by injection hsome
          subst hle
          simp only [hp, if_true]
      · simp only [Bool.not_eq_true] at hp
        constructor
        · simp only [hp, Bool.false_eq_true, if_false]
          exact ⟨fun _ => Or.inr ⟨layer, rfl, hp⟩, fun _ => trivial⟩
        · intro l hsome hplay
          have hle : layer = l := by injection hsome
          subst hle
          rw [hp] at hplay
          cases hplay

/-- Witness for C10: the concrete playing layer in `sW` yields the
analyser byte array; an unknown id yields `none`. -/
theorem getAnalyserData_contract_witness :
    getAnalyserData sW "a" (fun _ => 0)
      = some ((List.range (layerW.analyserFftSize / 2)).map (fun _ => 0)) :=
  (getAnalyserData_contract sW "a" (fun _ => 0)).2 layerW
    (by with_unfolding_all decide) (by with_unfolding_all decide)
